import Mathlib

/-!
Verification of the klipper-mcu firmware core against its specification.

Shallow embedding of the firmware sources:
  * `Sched`    — src/sched.c (timer list, dispatch of a due timer)
  * `Heater`   — app/heater.c (NTC table conversion, PID update, targets)
  * `Gcode`    — app/gcode.c (line parser, dispatcher fragments)
  * `TrapqPool`— chelper/trapq.c (bounded move pool and append)
  * `Toolhead` — app/toolhead.c + chelper/trapq.c + chelper/kin_cartesian.c
                 (lookahead planner, trapezoid profiles, move / flush / home)

C `double`/`float` values are modelled as `ℝ` where the code computes
square roots (motion planner) and as `ℚ` where all arithmetic is
field arithmetic (heater, parser), so those definitions stay executable.
C integer error codes are modelled as `Int` with the source values.
-/

/- ================================================================
   Part 1: definitions
   ================================================================ -/

namespace Sched

/-- Width of the microsecond counter (`uint32_t`). -/
def timeBits : ℕ := 32

/-- `sched_time_diff` from src/sched.c lines 56-59: `(int32_t)(t1 - t2)` on
`uint32_t` arguments.  Times are naturals `< 2^32`; the unsigned subtraction
wraps and the result is reinterpreted as a signed 32-bit value. -/
def sched_time_diff (t1 t2 : ℕ) : ℤ :=
  let d : ℕ := (t1 + 2 ^ timeBits - t2 % 2 ^ timeBits) % 2 ^ timeBits
  if d < 2 ^ (timeBits - 1) then (d : ℤ) else (d : ℤ) - 2 ^ timeBits

/-- A scheduler timer: wake time plus an identity standing for the C
structure address (`sched_timer_t *`).  The callback is passed separately. -/
structure Timer where
  waketime : ℕ
  id : ℕ
  deriving DecidableEq, Repr

/-- `sched_add_timer` from src/sched.c lines 91-115: sorted insert into the
timer list; the new timer goes before the first timer that wakes strictly
later (overflow-safe comparison), i.e. after all timers with equal wake. -/
def sched_add_timer (t : Timer) : List Timer → List Timer
  | [] => [t]
  | u :: rest =>
    if sched_time_diff t.waketime u.waketime < 0 then t :: u :: rest
    else u :: sched_add_timer t rest

/-- One dispatch of a due timer from the body of `sched_main`
(src/sched.c lines 196-210): the timer has been unlinked from the head of
the list (`rest` is the remainder), its callback `f` runs on the recorded
waketime, and the timer is re-registered at the returned time exactly when
that value is nonzero (`if (next_waketime != 0)`). -/
def sched_dispatch_one (f : ℕ → ℕ) (t : Timer) (rest : List Timer) : List Timer :=
  let next_waketime := f t.waketime
  if next_waketime ≠ 0 then sched_add_timer { t with waketime := next_waketime } rest
  else rest

end Sched

namespace Heater

/-- `HEATER_TEMP_MIN` from app/heater.h line 51 (`0.0f`). -/
def HEATER_TEMP_MIN : ℚ := 0

/-- `HEATER_TEMP_MAX` from app/heater.h line 52 (`300.0f`). -/
def HEATER_TEMP_MAX : ℚ := 300

/-- `HEATER_TEMP_INVALID` from app/heater.h line 53 (`-999.0f`). -/
def HEATER_TEMP_INVALID : ℚ := -999

/-- `HEATER_TEMP_TOLERANCE` from app/heater.h line 56 (`3.0f`). -/
def HEATER_TEMP_TOLERANCE : ℚ := 3

/-- `ADC_MAX_VALUE` from src/stm32/adc.h line 18. -/
def ADC_MAX_VALUE : ℤ := 4095

/-- `PID_DT` from app/heater.c line 23 (`0.1f`). -/
def PID_DT : ℚ := 1 / 10

/-- `PID_INTEGRAL_MAX` from app/heater.c line 26 (`100.0f`). -/
def PID_INTEGRAL_MAX : ℚ := 100

/-- `PID_TARGET_CHANGE_THRESHOLD` from app/heater.c line 29 (`10.0f`). -/
def PID_TARGET_CHANGE_THRESHOLD : ℚ := 10

/-- `max_power` of both entries of `s_heater_config` (app/heater.c lines
132-155): `1.0f` for the hotend and for the bed. -/
def heater_max_power : ℚ := 1

/-- `s_ntc_table` from app/heater.c lines 73-108: pairs of ADC value and
temperature in tenths of a degree, ADC ascending, temperature descending. -/
def s_ntc_table : List (ℤ × ℤ) :=
  [(23, 3000), (31, 2900), (41, 2800), (54, 2700), (71, 2600), (93, 2500),
   (120, 2400), (154, 2300), (196, 2200), (248, 2100), (311, 2000),
   (386, 1900), (475, 1800), (578, 1700), (696, 1600), (829, 1500),
   (976, 1400), (1136, 1300), (1307, 1200), (1486, 1100), (1670, 1000),
   (1855, 900), (2037, 800), (2213, 700), (2379, 600), (2534, 500),
   (2676, 400), (2804, 300), (2918, 200), (3018, 100), (3105, 0),
   (3180, -100), (3244, -200)]

/-- The interpolation loop of `ntc_adc_to_temp` (app/heater.c lines
193-209): scan adjacent table entries; on the bracketing interval return
the linear interpolation (table temperatures are tenths of a degree, so
the result is divided by 10); falling off the loop returns the invalid
sentinel (the code comment: "should not reach here"). -/
def ntc_scan : List (ℤ × ℤ) → ℤ → ℚ
  | (a1, t1) :: (a2, t2) :: rest, adc =>
    if a1 ≤ adc ∧ adc ≤ a2 then
      let frac : ℚ := ((adc - a1 : ℤ) : ℚ) / ((a2 - a1 : ℤ) : ℚ)
      ((t1 : ℚ) + frac * ((t2 - t1 : ℤ) : ℚ)) / 10
    else ntc_scan ((a2, t2) :: rest) adc
  | _, _ => HEATER_TEMP_INVALID

/-- ADC value of the first table entry (`s_ntc_table[0].adc`). -/
def ntc_first_adc : ℤ := (s_ntc_table.headD (0, 0)).1

/-- ADC value of the last table entry (`s_ntc_table[NTC_TABLE_SIZE-1].adc`). -/
def ntc_last_adc : ℤ := (s_ntc_table.getLastD (0, 0)).1

/-- `ntc_adc_to_temp` from app/heater.c lines 173-213: out-of-range ADC
readings give the invalid sentinel; readings below the first table entry
give `HEATER_TEMP_MAX`; readings above the last table entry give
`HEATER_TEMP_MIN`; otherwise the table is interpolated. -/
def ntc_adc_to_temp (adc : ℤ) : ℚ :=
  if adc < 0 ∨ adc > ADC_MAX_VALUE then HEATER_TEMP_INVALID
  else if adc < ntc_first_adc then HEATER_TEMP_MAX
  else if adc > ntc_last_adc then HEATER_TEMP_MIN
  else ntc_scan s_ntc_table adc

/-- Mutable per-heater state (`heater_state_t`, app/heater.c lines 115-123).
The ADC reading is an input of each tick, so `current_temp` is carried as a
plain field that callers update. -/
structure HState where
  current_temp : ℚ
  target_temp : ℚ
  prev_error : ℚ
  integral : ℚ
  output : ℚ
  pwm_enabled : Bool
  deriving Repr

/-- PID gains (`pid_params_t`, app/heater.h lines 32-36). -/
structure PidParams where
  kp : ℚ
  ki : ℚ
  kd : ℚ
  deriving Repr

/-- Hotend gains from config.h lines 64-66. -/
def hotend_pid : PidParams := ⟨222 / 10, 108 / 100, 114⟩

/-- `pid_update` from app/heater.c lines 296-343.  Returns the clamped
output together with the updated state.  The integral is accumulated and
clamped to `±PID_INTEGRAL_MAX`; when the output saturates at 0 (resp. 1)
and the error keeps pushing into saturation, this tick's `error * dt` is
rolled back out of the accumulator. -/
def pid_update (st : HState) (p : PidParams) (current_temp dt : ℚ) : ℚ × HState :=
  let error := st.target_temp - current_temp
  let i1 := st.integral + error * dt
  let i2 := if i1 > PID_INTEGRAL_MAX then PID_INTEGRAL_MAX
            else if i1 < -PID_INTEGRAL_MAX then -PID_INTEGRAL_MAX else i1
  let derivative := (error - st.prev_error) / dt
  let out0 := p.kp * error + p.ki * i2 + p.kd * derivative
  if out0 < 0 then
    let i3 := if error < 0 ∧ i2 < 0 then i2 - error * dt else i2
    (0, { st with prev_error := error, integral := i3, output := 0 })
  else if out0 > 1 then
    let i3 := if error > 0 ∧ i2 > 0 then i2 - error * dt else i2
    (1, { st with prev_error := error, integral := i3, output := 1 })
  else
    (out0, { st with prev_error := error, integral := i2, output := out0 })

/-- `heater_set_temp` from app/heater.c lines 429-481 (for one heater):
clamp the target into `[HEATER_TEMP_MIN, HEATER_TEMP_MAX]`, reset the PID
state on a target change larger than the threshold, and on a target of 0
zero the output and disable PWM, otherwise enable PWM. -/
def heater_set_temp (st : HState) (target0 : ℚ) : HState :=
  let target := if target0 < HEATER_TEMP_MIN then HEATER_TEMP_MIN
                else if target0 > HEATER_TEMP_MAX then HEATER_TEMP_MAX else target0
  let target_diff0 := target - st.target_temp
  let target_diff := if target_diff0 < 0 then -target_diff0 else target_diff0
  let st1 := { st with target_temp := target }
  let st2 := if target_diff > PID_TARGET_CHANGE_THRESHOLD then
               { st1 with integral := 0, prev_error := 0 }
             else st1
  if target ≤ 0 then
    { st2 with integral := 0, prev_error := 0, output := 0, pwm_enabled := false }
  else
    { st2 with pwm_enabled := true }

/-- `heater_is_at_target` from app/heater.c lines 540-562, as a function of
the freshly read current temperature and the stored target: true when the
target is `≤ 0`, otherwise when `|current - target| ≤ 3`. -/
def heater_is_at_target (current target : ℚ) : Bool :=
  if target ≤ 0 then true
  else
    let diff0 := current - target
    let diff := if diff0 < 0 then -diff0 else diff0
    decide (diff ≤ HEATER_TEMP_TOLERANCE)

end Heater

namespace Gcode

/-- G-code return codes from app/gcode.h lines 30-36. -/
def GCODE_OK : Int := 0

def GCODE_ERR_EMPTY : Int := -2

def GCODE_ERR_COMMENT : Int := -3

def GCODE_ERR_INVALID : Int := -4

def GCODE_ERR_UNKNOWN : Int := -6

/-- Parsed command (`gcode_cmd_t`): letter, numeric code, six optional
parameters with presence flags. -/
structure GcodeCmd where
  cmd : Char
  code : ℕ
  x : ℚ
  y : ℚ
  z : ℚ
  e : ℚ
  f : ℚ
  s : ℚ
  has_x : Bool
  has_y : Bool
  has_z : Bool
  has_e : Bool
  has_f : Bool
  has_s : Bool
  deriving DecidableEq, Repr

/-- `gcode_cmd_clear` (app/gcode.c lines 224-230): everything zeroed. -/
def gcode_cmd_clear : GcodeCmd :=
  ⟨Char.ofNat 0, 0, 0, 0, 0, 0, 0, 0, false, false, false, false, false, false⟩

/-- Decimal digit test (`*str >= '0' && *str <= '9'`). -/
def isDig (c : Char) : Bool := '0' ≤ c ∧ c ≤ '9'

/-- `skip_whitespace` from app/gcode.c lines 239-246: drop spaces and tabs. -/
def skip_whitespace : List Char → List Char
  | c :: rest => if c = ' ' ∨ c = '\t' then skip_whitespace rest else c :: rest
  | [] => []

/-- Numeric value of a digit character. -/
def digit_val (c : Char) : ℕ := c.toNat - '0'.toNat

/-- Digit/point loop of `parse_float` (app/gcode.c lines 282-298), carrying
`(result, fraction, divisor, has_digits, in_fraction)` and returning the
unconsumed rest of the input. -/
def pf_loop : List Char → ℚ → ℚ → ℚ → Bool → Bool → (ℚ × ℚ × Bool × List Char)
  | [], res, fr, _, hd, _ => (res, fr, hd, [])
  | c :: rest, res, fr, dv, hd, infr =>
    if isDig c then
      if infr then pf_loop rest res (fr + (digit_val c : ℚ) / dv) (dv * 10) true infr
      else pf_loop rest (res * 10 + (digit_val c : ℚ)) fr dv true infr
    else if c = '.' ∧ ¬infr then pf_loop rest res fr dv hd true
    else (res, fr, hd, c :: rest)

/-- `parse_float` from app/gcode.c lines 260-319: optional sign, digits,
optional decimal point with fraction digits; fails (and consumes nothing)
when no digit was seen. -/
def parse_float (l : List Char) : Option (ℚ × List Char) :=
  let l1 := skip_whitespace l
  let signedTail : Bool × List Char :=
    match l1 with
    | '-' :: rest => (true, rest)
    | '+' :: rest => (false, rest)
    | _ => (false, l1)
  let (res, fr, hd, rest) := pf_loop signedTail.2 0 0 10 false false
  if hd then
    let v := res + fr
    some (if signedTail.1 then -v else v, rest)
  else none

/-- Digit loop of `parse_command` (app/gcode.c lines 346-349):
`code = code * 10 + digit`. -/
def read_code : List Char → ℕ → ℕ
  | c :: rest, code => if isDig c then read_code rest (code * 10 + digit_val c) else code
  | [], code => code

/-- `parse_command` from app/gcode.c lines 328-356: skip blanks, read the
command letter (upper-cased; must be `G` or `M`, otherwise
`GCODE_ERR_INVALID`), then accumulate any following digits into the code —
note a letter followed by no digits yields code 0 and still succeeds. -/
def parse_command (l : List Char) : Int × Char × ℕ :=
  let p := skip_whitespace l
  let c0 := p.headD (Char.ofNat 0)
  let cu := c0.toUpper
  if cu ≠ 'G' ∧ cu ≠ 'M' then (GCODE_ERR_INVALID, cu, 0)
  else (GCODE_OK, cu, read_code p.tail 0)

/-- `is_supported_gcode` from app/gcode.c lines 452-480. -/
def is_supported_gcode (cmd : Char) (code : ℕ) : Bool :=
  if cmd = 'G' then code = 0 ∨ code = 1 ∨ code = 28 ∨ code = 90 ∨ code = 91
  else if cmd = 'M' then code = 104 ∨ code = 109 ∨ code = 106 ∨ code = 107 ∨ code = 114
  else false

/-- Parameter storing switch of `parse_parameters`
(app/gcode.c lines 412-440). -/
def store_param (pc : Char) (v : ℚ) (cmd : GcodeCmd) : GcodeCmd :=
  if pc = 'X' then { cmd with x := v, has_x := true }
  else if pc = 'Y' then { cmd with y := v, has_y := true }
  else if pc = 'Z' then { cmd with z := v, has_z := true }
  else if pc = 'E' then { cmd with e := v, has_e := true }
  else if pc = 'F' then { cmd with f := v, has_f := true }
  else if pc = 'S' then { cmd with s := v, has_s := true }
  else cmd

/-- Parameter loop of `parse_parameters` (app/gcode.c lines 385-441).  Each
iteration consumes at least the parameter letter, so a fuel of the line
length is enough; fuel exhaustion returns the accumulator (never reached
with the initial fuel used below). -/
def parse_params_loop : ℕ → List Char → GcodeCmd → GcodeCmd
  | 0, _, acc => acc
  | fuel + 1, l, acc =>
    let l1 := skip_whitespace l
    match l1 with
    | [] => acc
    | c :: rest =>
      if c = '\n' ∨ c = '\r' ∨ c = ';' then acc
      else
        let pc := c.toUpper
        match parse_float rest with
        | some (v, rest2) => parse_params_loop fuel rest2 (store_param pc v acc)
        | none =>
          if acc.cmd = 'G' ∧ acc.code = 28 then
            parse_params_loop fuel rest (store_param pc 0 acc)
          else
            parse_params_loop fuel rest acc

/-- `parse_parameters` from app/gcode.c lines 367-444: skip the command
letter and digits, then run the parameter loop (always returns `GCODE_OK`,
so only the command is returned). -/
def parse_parameters (l : List Char) (cmd : GcodeCmd) : GcodeCmd :=
  let p := skip_whitespace l
  let p2 :=
    match p with
    | c :: _ =>
      if c = 'G' ∨ c = 'g' ∨ c = 'M' ∨ c = 'm' then
        (skip_whitespace l).tail.dropWhile (fun d => isDig d)
      else p
    | [] => p
  parse_params_loop (l.length + 1) p2 cmd

/-- `gcode_parse_line` from app/gcode.c lines 156-201: empty and comment
lines are reported as such; the command is parsed, checked against the
supported set, and the parameters are read.  The result pairs the C return
code with the parsed command. -/
def gcode_parse_line (l : List Char) : Int × GcodeCmd :=
  let p := skip_whitespace l
  match p with
  | [] => (GCODE_ERR_EMPTY, gcode_cmd_clear)
  | c :: _ =>
    if c = '\n' ∨ c = '\r' then (GCODE_ERR_EMPTY, gcode_cmd_clear)
    else if c = ';' then (GCODE_ERR_COMMENT, gcode_cmd_clear)
    else
      let (ret, cu, code) := parse_command p
      if ret ≠ GCODE_OK then (ret, gcode_cmd_clear)
      else if ¬is_supported_gcode cu code then (GCODE_ERR_UNKNOWN, gcode_cmd_clear)
      else (GCODE_OK, parse_parameters p { gcode_cmd_clear with cmd := cu, code := code })

/-- Return code of `gcode_execute` (app/gcode.c lines 714-779) as a
function of the dispatched command: every implemented handler
(`execute_g0_g1`, `execute_g28`, `execute_g90`, `execute_g91`,
`execute_m104`, `execute_m109`, `execute_m106`, `execute_m107`,
`execute_m114`) returns 0, anything else is `GCODE_ERR_UNKNOWN`. -/
def gcode_execute_retcode (cmd : GcodeCmd) : Int :=
  if is_supported_gcode cmd.cmd cmd.code then GCODE_OK else GCODE_ERR_UNKNOWN

/-- Response selection of `gcode_process` (app/gcode.c lines 853-885) for
one input line, composed with the parse and the execute return code. -/
def line_response (l : List Char) : String :=
  let (ret, cmd) := gcode_parse_line l
  if ret = GCODE_OK then
    if gcode_execute_retcode cmd = GCODE_OK then "ok" else "error: execution failed"
  else if ret = GCODE_ERR_EMPTY ∨ ret = GCODE_ERR_COMMENT then "ok"
  else if ret = GCODE_ERR_UNKNOWN then "error: unknown command"
  else if ret = GCODE_ERR_INVALID then "error: invalid command"
  else "error: parse error"

end Gcode

/-- `execute_m109` from app/gcode.c lines 623-641: set the hotend target
from the `S` parameter, then `while (!heater_is_at_target(HEATER_HOTEND))
{ break; }` — the loop body is a bare `break`, so the function performs no
wait and returns 0 immediately, whether or not the heater is at target. -/
def Gcode.execute_m109 (cmd : Gcode.GcodeCmd) (h : Heater.HState) : Int × Heater.HState :=
  let h1 := if cmd.has_s then Heater.heater_set_temp h cmd.s else h
  (0, h1)

namespace TrapqPool

/-- `TRAPQ_MAX_MOVES` from chelper/trapq.h. -/
def TRAPQ_MAX_MOVES : ℕ := 32

/-- The arguments of one `trapq_append` call (chelper/trapq.c lines
172-177), as stored into the allocated `struct move`. -/
structure MoveArgs where
  print_time : ℚ
  accel_t : ℚ
  cruise_t : ℚ
  decel_t : ℚ
  start_v : ℚ
  cruise_v : ℚ
  accel : ℚ
  deriving DecidableEq, Repr

/-- The static pool (`move_pool_used`) and the queue (`tq->moves`), the
latter as the list of allocated slots with the stored move data. -/
structure PoolState where
  used : List Bool
  queue : List (ℕ × MoveArgs)
  deriving DecidableEq, Repr

/-- Scan of `move_alloc` (chelper/trapq.c lines 81-93) from index `i`:
first unused slot is claimed; `none` models the `NULL` return when every
slot is in use. -/
def move_alloc_scan : ℕ → List Bool → Option (ℕ × List Bool)
  | _, [] => none
  | i, b :: rest =>
    if b then (move_alloc_scan (i + 1) rest).map (fun p => (p.1, b :: p.2))
    else some (i, true :: rest)

/-- `move_alloc` from chelper/trapq.c lines 81-93. -/
def move_alloc (used : List Bool) : Option (ℕ × List Bool) :=
  move_alloc_scan 0 used

/-- `trapq_append` from chelper/trapq.c lines 172-196: allocate a move from
the pool and add it to the queue tail; when the pool is exhausted
(`move_alloc` returns `NULL`) the function silently returns — the C
function has return type `void`, so the caller receives no failure
indication and the segment is dropped. -/
def trapq_append (ps : PoolState) (args : MoveArgs) : PoolState :=
  match move_alloc ps.used with
  | none => ps
  | some (i, used2) => ⟨used2, ps.queue ++ [(i, args)]⟩

end TrapqPool

namespace Toolhead

noncomputable section

/-- `struct coord` from chelper/trapq.h: position (x, y, z, e) in mm. -/
structure Coord where
  x : ℝ
  y : ℝ
  z : ℝ
  e : ℝ

/-- `toolhead_config_t` from app/toolhead.h. -/
structure Config where
  max_velocity : ℝ
  max_accel : ℝ
  max_accel_to_decel : ℝ
  square_corner_velocity : ℝ

/-- `config_init_defaults` (app/toolhead.c lines 172-196) with the
constants of config.h: `max_velocity` 200, `max_accel` 3000,
`max_accel_to_decel = 0.5 * max_accel`, `square_corner_velocity` 5. -/
def default_config : Config := ⟨200, 3000, 1500, 5⟩

/-- Axis limits from config.h lines 56-61 (E has none, toolhead.c 184). -/
def X_MIN : ℝ := 0

def X_MAX : ℝ := 220

def Y_MIN : ℝ := 0

def Y_MAX : ℝ := 220

def Z_MIN : ℝ := 0

def Z_MAX : ℝ := 250

/-- `MIN_MOVE_DISTANCE` from app/toolhead.c line 30. -/
def MIN_MOVE_DISTANCE : ℝ := 0.000001

/-- `LOOKAHEAD_SIZE` from app/toolhead.c line 45. -/
def LOOKAHEAD_SIZE : ℕ := 16

/-- `TRAPQ_MAX_MOVES` from chelper/trapq.h. -/
def TRAPQ_MAX_MOVES : ℕ := 32

/-- `HOMING_TIMEOUT` from app/toolhead.c line 42 (seconds). -/
def HOMING_TIMEOUT : ℚ := 30

/-- Error codes from app/toolhead.h lines 27-32. -/
def TOOLHEAD_OK : Int := 0

def TOOLHEAD_ERR_LIMIT : Int := -2

def TOOLHEAD_ERR_QUEUE : Int := -3

def TOOLHEAD_ERR_HOMING : Int := -5

/-- `lookahead_move_t` from app/toolhead.c lines 57-69 (the `valid` flag is
only ever set to 1 and never read, so it is omitted). -/
structure LAMove where
  start_pos : Coord
  end_pos : Coord
  distance : ℝ
  max_velocity : ℝ
  max_start_v : ℝ
  max_cruise_v : ℝ
  max_end_v : ℝ
  start_v : ℝ
  cruise_v : ℝ
  end_v : ℝ

/-- `struct move` from chelper/trapq.h: one trapezoidal segment. -/
structure TMove where
  print_time : ℝ
  move_t : ℝ
  start_v : ℝ
  half_accel : ℝ
  cruise_v : ℝ
  accel_t : ℝ
  cruise_t : ℝ
  decel_t : ℝ
  start_pos : Coord
  axes_r : Coord

/-- `struct trapq`: active and history move lists.  `trace` is a ghost
field recording every segment ever appended, in append order; it exists
only so that adjacency of appended segments (also across later
finalize/free migrations) can be stated, and no modelled code reads it. -/
structure Trapq where
  moves : List TMove
  history : List TMove
  trace : List TMove

/-- The toolhead module state (statics of app/toolhead.c): commanded and
current position, print time, the lookahead ring (modelled as the FIFO
list of its live entries, capacity `LOOKAHEAD_SIZE`), the trapq and the
configuration.  Stepper/itersolve state is not modelled; `generate_steps`
reads the trapq but writes none of the fields modelled here. -/
structure THState where
  commanded_pos : Coord
  current_pos : Coord
  print_time : ℝ
  lookahead : List LAMove
  tq : Trapq
  config : Config

/-- `calc_move_distance` from app/toolhead.c lines 228-237: Euclidean
length over all four axes. -/
def calc_move_distance (s e : Coord) : ℝ :=
  Real.sqrt ((e.x - s.x) * (e.x - s.x) + (e.y - s.y) * (e.y - s.y) +
    (e.z - s.z) * (e.z - s.z) + (e.e - s.e) * (e.e - s.e))

/-- `cartesian_calc_direction` from chelper/kin_cartesian.c lines 293-322:
normalized direction vector (zero for a move shorter than `1e-9`) and the
four-axis distance. -/
def cartesian_calc_direction (s e : Coord) : Coord × ℝ :=
  let dx := e.x - s.x
  let dy := e.y - s.y
  let dz := e.z - s.z
  let de := e.e - s.e
  let dist := Real.sqrt (dx * dx + dy * dy + dz * dz + de * de)
  if dist < 1e-9 then (⟨0, 0, 0, 0⟩, 0)
  else (⟨dx * (1 / dist), dy * (1 / dist), dz * (1 / dist), de * (1 / dist)⟩, dist)

/-- `calc_junction_velocity` from app/toolhead.c lines 329-367: dot product
of the two directions over x, y, z; near-reversal gives 0, near-collinear
gives `max_v`; otherwise the square-corner-velocity cap
`sqrt(accel * deviation / sin(theta/2))`, clamped to `max_v`. -/
def calc_junction_velocity (cfg : Config) (prev_dir next_dir : Coord) (max_v : ℝ) : ℝ :=
  let dot := prev_dir.x * next_dir.x + prev_dir.y * next_dir.y + prev_dir.z * next_dir.z
  if dot < -0.999 then 0
  else if dot > 0.999 then max_v
  else
    let sin_half_theta := Real.sqrt ((1 - dot) * 0.5)
    let deviation := cfg.square_corner_velocity * cfg.square_corner_velocity / cfg.max_accel
    let junction_v := Real.sqrt (cfg.max_accel * deviation / sin_half_theta)
    if junction_v > max_v then max_v else junction_v

/-- `calc_trapezoidal_profile` from app/toolhead.c lines 256-316: phase
durations `(accel_t, cruise_t, decel_t)` for the trapezoid; when the
distance cannot hold both ramps the peak velocity
`sqrt((start_v² + end_v²)/2 + accel·distance)` (clamped below by `start_v`
and `end_v`) replaces the cruise velocity in the ramp times and the cruise
phase is dropped. -/
def calc_trapezoidal_profile (distance start_v cruise_v end_v accel : ℝ) : ℝ × ℝ × ℝ :=
  let accel_t := if cruise_v > start_v then (cruise_v - start_v) / accel else 0
  let accel_dist := if cruise_v > start_v then (start_v + cruise_v) * 0.5 * accel_t else 0
  let decel_t := if cruise_v > end_v then (cruise_v - end_v) / accel else 0
  let decel_dist := if cruise_v > end_v then (cruise_v + end_v) * 0.5 * decel_t else 0
  let cruise_dist := distance - accel_dist - decel_dist
  if cruise_dist < 0 then
    let peak_v_sq := (start_v * start_v + end_v * end_v) * 0.5 + accel * distance
    let peak_v0 := Real.sqrt peak_v_sq
    let peak_v1 := if peak_v0 < start_v then start_v else peak_v0
    let peak_v := if peak_v1 < end_v then end_v else peak_v1
    (if peak_v > start_v then (peak_v - start_v) / accel else 0, 0,
     if peak_v > end_v then (peak_v - end_v) / accel else 0)
  else
    (accel_t, cruise_dist / cruise_v, decel_t)

/-- Acceleration-phase block of `move_get_distance` (chelper/trapq.c lines
135-140): the pair carries `(dist, t)` — distance summed so far and
remaining time. -/
def mgd_accel (m : TMove) (t : ℝ) : ℝ × ℝ :=
  if t > 0 ∧ m.accel_t > 0 then
    let ta := if t < m.accel_t then t else m.accel_t
    (m.start_v * ta + m.half_accel * ta * ta, t - ta)
  else (0, t)

/-- Cruise-phase block of `move_get_distance` (chelper/trapq.c lines
142-147). -/
def mgd_cruise (m : TMove) (s : ℝ × ℝ) : ℝ × ℝ :=
  if s.2 > 0 ∧ m.cruise_t > 0 then
    let tc := if s.2 < m.cruise_t then s.2 else m.cruise_t
    (s.1 + m.cruise_v * tc, s.2 - tc)
  else s

/-- Deceleration-phase block of `move_get_distance` (chelper/trapq.c lines
149-154). -/
def mgd_decel (m : TMove) (s : ℝ × ℝ) : ℝ :=
  if s.2 > 0 ∧ m.decel_t > 0 then
    let td := if s.2 < m.decel_t then s.2 else m.decel_t
    s.1 + m.cruise_v * td - m.half_accel * td * td
  else s.1

/-- `move_get_distance` from chelper/trapq.c lines 112-157: clamp the query
time into the move, then walk the accel, cruise and decel phase blocks
summing the piecewise trapezoidal distance law. -/
def move_get_distance (m : TMove) (move_time : ℝ) : ℝ :=
  if move_time ≤ 0 then 0
  else
    let t0 := if move_time ≥ m.move_t then m.move_t else move_time
    mgd_decel m (mgd_cruise m (mgd_accel m t0))

/-- Velocity of the stored trapezoidal law at the end of a segment:
`cruise_v` lowered by the full deceleration ramp (`accel = 2·half_accel`
over `decel_t`).  This is the end velocity a segment appended by
`trapq_append` encodes. -/
def move_end_velocity (m : TMove) : ℝ :=
  m.cruise_v - 2 * m.half_accel * m.decel_t

/-- `trapq_append` from chelper/trapq.c lines 172-196 at the granularity of
this model: the shared pool holds `TRAPQ_MAX_MOVES` slots and every live
slot is in `moves` or `history`, so exhaustion (the silent-return path) is
the capacity test on their lengths.  The appended segment stores
`move_t = accel_t + cruise_t + decel_t` and `half_accel = accel * 0.5`. -/
def trapq_append (tq : Trapq) (print_time accel_t cruise_t decel_t : ℝ)
    (start_pos axes_r : Coord) (start_v cruise_v accel : ℝ) : Trapq :=
  if tq.moves.length + tq.history.length ≥ TRAPQ_MAX_MOVES then tq
  else
    let m : TMove :=
      { print_time := print_time, move_t := accel_t + cruise_t + decel_t,
        start_v := start_v, half_accel := accel * 0.5, cruise_v := cruise_v,
        accel_t := accel_t, cruise_t := cruise_t, decel_t := decel_t,
        start_pos := start_pos, axes_r := axes_r }
    { moves := tq.moves ++ [m], history := tq.history, trace := tq.trace ++ [m] }

/-- `trapq_finalize_moves` from chelper/trapq.c lines 198-211: migrate the
moves whose end time is `≤ print_time` from the active list to the tail of
the history list, in order. -/
def trapq_finalize_moves (tq : Trapq) (print_time : ℝ) : Trapq :=
  { moves := tq.moves.filter (fun m => ¬(m.print_time + m.move_t ≤ print_time)),
    history := tq.history ++ tq.moves.filter (fun m => m.print_time + m.move_t ≤ print_time),
    trace := tq.trace }

/-- `trapq_free_moves` from chelper/trapq.c lines 213-225: destroy history
entries whose end time is strictly older than `print_time`. -/
def trapq_free_moves (tq : Trapq) (print_time : ℝ) : Trapq :=
  { tq with history := tq.history.filter (fun m => ¬(m.print_time + m.move_t < print_time)) }

/-- Direction of a lookahead move, as computed where the planner calls
`cartesian_calc_direction(&m->start_pos, &m->end_pos, &dir)`. -/
def dir_of (m : LAMove) : Coord :=
  (cartesian_calc_direction m.start_pos m.end_pos).1

/-- Reverse pass of `lookahead_process` (app/toolhead.c lines 418-455),
written as a recursion that processes the queue from its tail: given the
move `prevm` preceding the sublist, it returns the `max_end_v` that the
pass assigns to `prevm` together with the updated sublist.  The last queue
entry receives `max_end_v = 0` (the pre-loop assignment at line 421); each
earlier entry gets `max_start_v = min(sqrt(max_end_v² + 2·a·d),
max_cruise_v)` further capped by the junction velocity with its
predecessor, and that value becomes the predecessor's `max_end_v`. -/
def lookahead_rev (cfg : Config) : LAMove → List LAMove → ℝ × List LAMove
  | _, [] => (0, [])
  | prevm, curr :: rest =>
    let r := lookahead_rev cfg curr rest
    let msv0 := Real.sqrt (r.1 * r.1 + 2 * cfg.max_accel * curr.distance)
    let msv1 := if msv0 > curr.max_cruise_v then curr.max_cruise_v else msv0
    let jv := calc_junction_velocity cfg (dir_of prevm) (dir_of curr) msv1
    let msv := if jv < msv1 then jv else msv1
    (msv, { curr with max_end_v := r.1, max_start_v := msv } :: r.2)

/-- Forward pass of `lookahead_process` (app/toolhead.c lines 457-494):
thread `prev_end_v` (starting at 0) through the queue, assigning
`start_v = prev_end_v`, `cruise_v = min(sqrt(start_v² + 2·a·d),
max_cruise_v)` and `end_v = min(max_end_v, sqrt(max(0, cruise_v² -
2·a_decel·d)))`. -/
def lookahead_fwd (cfg : Config) : ℝ → List LAMove → List LAMove
  | _, [] => []
  | prev_end_v, m :: rest =>
    let sv := prev_end_v
    let cv0 := Real.sqrt (sv * sv + 2 * cfg.max_accel * m.distance)
    let cv := if cv0 > m.max_cruise_v then m.max_cruise_v else cv0
    let ev_sq := cv * cv - 2 * cfg.max_accel_to_decel * m.distance
    let ev0 := if ev_sq > 0 then Real.sqrt ev_sq else 0
    let ev := if ev0 > m.max_end_v then m.max_end_v else ev0
    { m with start_v := sv, cruise_v := cv, end_v := ev } :: lookahead_fwd cfg ev rest

/-- `lookahead_process` from app/toolhead.c lines 411-494: reverse pass
then forward pass over the pending queue (empty queue: no work). -/
def lookahead_process (cfg : Config) : List LAMove → List LAMove
  | [] => []
  | m0 :: rest =>
    let r := lookahead_rev cfg m0 rest
    lookahead_fwd cfg 0 ({ m0 with max_end_v := r.1 } :: r.2)

/-- Emission of one popped lookahead move, the shared body of the loop in
`lookahead_flush` (app/toolhead.c lines 506-528) and of the drain loop in
`toolhead_move` (lines 741-766): compute the trapezoid profile and the
direction, append to the trapq at the print-time cursor, advance the
cursor by the move duration and record the end position. -/
def emit_move (st : THState) (m : LAMove) : THState :=
  let prof := calc_trapezoidal_profile m.distance m.start_v m.cruise_v m.end_v
    st.config.max_accel
  let axes_r := (cartesian_calc_direction m.start_pos m.end_pos).1
  let tq2 := trapq_append st.tq st.print_time prof.1 prof.2.1 prof.2.2
    m.start_pos axes_r m.start_v m.cruise_v st.config.max_accel
  { st with
      tq := tq2
      print_time := st.print_time + (prof.1 + prof.2.1 + prof.2.2)
      current_pos := m.end_pos }

/-- `lookahead_flush` from app/toolhead.c lines 501-529: pop and emit every
pending lookahead move, oldest first. -/
def lookahead_flush (st : THState) : THState :=
  st.lookahead.foldl emit_move { st with lookahead := [] }

/-- The drain loop of `toolhead_move` (app/toolhead.c lines 741-766):
`while (s_lookahead_count > 2)` pop the head and emit it.  The fuel is
bounded by the queue capacity; with fuel `≥` the queue length the loop
runs to its exit condition. -/
def drain_aux : ℕ → THState → THState
  | 0, st => st
  | n + 1, st =>
    if st.lookahead.length > 2 then
      match st.lookahead with
      | [] => st
      | m :: rest => drain_aux n (emit_move { st with lookahead := rest } m)
    else st

/-- `lookahead_push` from app/toolhead.c lines 372-384: FIFO insert,
failing when the ring is full. -/
def lookahead_push (q : List LAMove) (m : LAMove) : Option (List LAMove) :=
  if q.length ≥ LOOKAHEAD_SIZE then none else some (q ++ [m])

/-- Tail of `toolhead_move` after a successful `lookahead_push`
(app/toolhead.c lines 733-772): update the commanded position; when the
queue now holds at least `LOOKAHEAD_SIZE - 2` entries, run
`lookahead_process` and drain all but the last two entries
(`generate_steps` touches no modelled state). -/
def toolhead_move_tail (st : THState) (q : List LAMove) (end_pos : Coord) : Int × THState :=
  let st2 := { st with lookahead := q, commanded_pos := end_pos }
  if LOOKAHEAD_SIZE - 2 ≤ st2.lookahead.length then
    (TOOLHEAD_OK, drain_aux LOOKAHEAD_SIZE
      { st2 with lookahead := lookahead_process st2.config st2.lookahead })
  else (TOOLHEAD_OK, st2)

/-- `toolhead_move` from app/toolhead.c lines 672-773: ignore moves shorter
than `MIN_MOVE_DISTANCE`; clamp the speed into `[0.001, max_velocity]`
(out-of-range speeds become `max_velocity`); reject end positions outside
the X/Y/Z limits with `TOOLHEAD_ERR_LIMIT`; push the move onto the
lookahead queue, on overflow first process-and-flush then retry, failing
with `TOOLHEAD_ERR_QUEUE`; finally update the commanded position and drain
when the queue is nearly full. -/
def toolhead_move (st : THState) (end_pos : Coord) (speed : ℝ) : Int × THState :=
  let distance := calc_move_distance st.commanded_pos end_pos
  if distance < MIN_MOVE_DISTANCE then (TOOLHEAD_OK, st)
  else
    let max_v0 := speed
    let max_v1 := if max_v0 > st.config.max_velocity then st.config.max_velocity else max_v0
    let max_v := if max_v1 < 0.001 then st.config.max_velocity else max_v1
    if end_pos.x < X_MIN ∨ end_pos.x > X_MAX ∨ end_pos.y < Y_MIN ∨ end_pos.y > Y_MAX ∨
        end_pos.z < Z_MIN ∨ end_pos.z > Z_MAX then
      (TOOLHEAD_ERR_LIMIT, st)
    else
      let mv : LAMove :=
        { start_pos := st.commanded_pos, end_pos := end_pos, distance := distance,
          max_velocity := max_v, max_start_v := max_v, max_cruise_v := max_v,
          max_end_v := max_v, start_v := 0, cruise_v := max_v, end_v := 0 }
      match lookahead_push st.lookahead mv with
      | some q => toolhead_move_tail st q end_pos
      | none =>
        let st2 := lookahead_flush { st with lookahead := lookahead_process st.config st.lookahead }
        match lookahead_push st2.lookahead mv with
        | some q => toolhead_move_tail st2 q end_pos
        | none => (TOOLHEAD_ERR_QUEUE, st2)

/-- `toolhead_flush` from app/toolhead.c lines 961-978: process and flush
the lookahead queue, then finalize completed trapq moves at the print-time
cursor and free history older than one second before it. -/
def toolhead_flush (st : THState) : THState :=
  let st2 := lookahead_flush { st with lookahead := lookahead_process st.config st.lookahead }
  let tq2 := trapq_free_moves (trapq_finalize_moves st2.tq st2.print_time) (st2.print_time - 1)
  { st2 with tq := tq2 }

end

/-- State of the homing wait loop of `toolhead_home` (app/toolhead.c lines
830-852).  `s_print_time` is a static of toolhead.c written only by the
lookahead emission paths; the loop body (endstop polls and `sched_main`,
whose timer callbacks live in endstop.c/stepper.c/pwmcmds.c/adccmds.c)
never writes it, so it is carried as a constant field; times are exact
rationals here since no square roots occur. -/
structure HomeWaitState where
  print_time : ℚ
  timeout_time : ℚ
  triggered : Bool
  deriving DecidableEq, Repr

/-- One iteration of the wait-loop body: the endstop polls (and the
endstop callback run from `sched_main`) can only set `triggered`;
`endstop_hit k` says whether the environment reports a trigger during
iteration `k`. -/
def home_wait_step (endstop_hit : ℕ → Bool) (k : ℕ) (st : HomeWaitState) : HomeWaitState :=
  { st with triggered := st.triggered || endstop_hit k }

/-- The wait loop `while (!s_home_ctx.triggered && s_print_time <
timeout_time)` of `toolhead_home`, run for at most `fuel` iterations
starting at iteration index `k`; `none` means the loop was still running
when the fuel ran out. -/
def toolhead_home_wait (endstop_hit : ℕ → Bool) :
    ℕ → ℕ → HomeWaitState → Option HomeWaitState
  | _, 0, st =>
    if st.triggered = false ∧ st.print_time < st.timeout_time then none else some st
  | k, fuel + 1, st =>
    if st.triggered = false ∧ st.print_time < st.timeout_time then
      toolhead_home_wait endstop_hit (k + 1) fuel (home_wait_step endstop_hit k st)
    else some st

end Toolhead

namespace Toolhead

noncomputable section

/-- Default lookahead move (used only as the `getD` fallback). -/
def dummyLA : LAMove :=
  ⟨⟨0, 0, 0, 0⟩, ⟨0, 0, 0, 0⟩, 0, 0, 0, 0, 0, 0, 0, 0⟩

/-- Default trapq move (used only as the `getD` fallback). -/
def dummyTMove : TMove :=
  ⟨0, 0, 0, 0, 0, 0, 0, 0, ⟨0, 0, 0, 0⟩, ⟨0, 0, 0, 0⟩⟩

/-- The toolhead state established by `toolhead_init` (app/toolhead.c lines
574-626): positions cleared, print time 0, empty lookahead queue and
trapq, default configuration. -/
def toolhead_init_state : THState :=
  { commanded_pos := ⟨0, 0, 0, 0⟩, current_pos := ⟨0, 0, 0, 0⟩, print_time := 0,
    lookahead := [], tq := ⟨[], [], []⟩, config := default_config }

/-- The statics of app/gcode.c (lines 33-42): coordinate mode (absolute
after `gcode_init`), feedrate in mm/min (initially 3000), and the position
mirror `s_pos_x/y/z/e` kept by the dispatcher — the values M114 reports
under the interface gcode.c itself declares (its weak
`toolhead_get_position`, lines 70-77, returns exactly this mirror). -/
structure GcodeState where
  mode_absolute : Bool
  feedrate : ℝ
  pos : Coord

/-- Gcode dispatcher state after `gcode_init`. -/
def gcode_init_state : GcodeState :=
  { mode_absolute := true, feedrate := 3000, pos := ⟨0, 0, 0, 0⟩ }

/-- `execute_g0_g1` from app/gcode.c lines 491-533: read the current
position (through `toolhead_get_position`, here the motion core's
commanded position), build the target according to the coordinate mode,
update the feedrate from `F`, call `toolhead_move` with feedrate/60 —
discarding its return value, exactly as the C code does — then
unconditionally store the target into the parser's position mirror and
return 0. -/
def execute_g0_g1 (cmd : Gcode.GcodeCmd) (g : GcodeState) (th : THState) :
    Int × GcodeState × THState :=
  let cur := th.commanded_pos
  let tx := if cmd.has_x then (if g.mode_absolute then ((cmd.x : ℚ) : ℝ)
            else cur.x + ((cmd.x : ℚ) : ℝ)) else cur.x
  let ty := if cmd.has_y then (if g.mode_absolute then ((cmd.y : ℚ) : ℝ)
            else cur.y + ((cmd.y : ℚ) : ℝ)) else cur.y
  let tz := if cmd.has_z then (if g.mode_absolute then ((cmd.z : ℚ) : ℝ)
            else cur.z + ((cmd.z : ℚ) : ℝ)) else cur.z
  let te := if cmd.has_e then (if g.mode_absolute then ((cmd.e : ℚ) : ℝ)
            else cur.e + ((cmd.e : ℚ) : ℝ)) else cur.e
  let fr := if cmd.has_f then ((cmd.f : ℚ) : ℝ) else g.feedrate
  let speed := fr / 60
  let moved := toolhead_move th ⟨tx, ty, tz, te⟩ speed
  (0, { mode_absolute := g.mode_absolute, feedrate := fr, pos := ⟨tx, ty, tz, te⟩ },
    moved.2)

/-- Length of each move of the continuity counterexample scenario (mm). -/
def ce_d : ℝ := 217 / 108000

/-- Requested speed of each move of the counterexample scenario (mm/s). -/
def ce_v : ℝ := 19 / 6

/-- Waypoints of the counterexample scenario: collinear on the X axis. -/
def ce_pos (k : ℕ) : Coord := ⟨(k : ℝ) * ce_d, 0, 0, 0⟩

/-- The lookahead entry that `toolhead_move` builds for the `(i+1)`-st
scenario move (before processing). -/
def ce_la (i : ℕ) : LAMove :=
  { start_pos := ce_pos i, end_pos := ce_pos (i + 1), distance := ce_d,
    max_velocity := ce_v, max_start_v := ce_v, max_cruise_v := ce_v,
    max_end_v := ce_v, start_v := 0, cruise_v := ce_v, end_v := 0 }

/-- Expected toolhead state after `k ≤ 13` scenario moves (no drain yet). -/
def ce_state (k : ℕ) : THState :=
  { toolhead_init_state with
      commanded_pos := ce_pos k
      lookahead := (List.range k).map ce_la }

/-- The scenario trajectory: `ce_push k` is the state after submitting the
first `k` moves via `toolhead_move`. -/
def ce_push : ℕ → THState
  | 0 => toolhead_init_state
  | k + 1 => (toolhead_move (ce_push k) (ce_pos (k + 1)) ce_v).2

/-- Final scenario state: 14 submitted moves (the 14th triggers the drain
that emits the first 12) followed by `toolhead_flush` (which emits the
two retained moves in a second lookahead pass). -/
def ce_final : THState := toolhead_flush (ce_push 14)

/-- The segment appended by `trapq_append` from the profile that
`calc_trapezoidal_profile (1/1000) 10 10 0 3000` produces (the peak-clamped
branch: `accel_t = 0`, `cruise_t = 0`, `decel_t = 1/300`, with the original
`cruise_v = 10` stored). -/
def c8_move : TMove :=
  { print_time := 0
    move_t := 0 + 0 + 1 / 300
    start_v := 10
    half_accel := 3000 * 0.5
    cruise_v := 10
    accel_t := 0
    cruise_t := 0
    decel_t := 1 / 300
    start_pos := ⟨0, 0, 0, 0⟩
    axes_r := ⟨1, 0, 0, 0⟩ }

/-- The cruise velocity the forward pass of `lookahead_process` assigns
(app/toolhead.c lines 470-473), as a function of the incoming `prev_end_v`
(named `sv` here) and the queue entry: the name for the `cruise_v`
let-binding of `lookahead_fwd`. -/
def fwd_cv (cfg : Config) (sv : ℝ) (m : LAMove) : ℝ :=
  let cv0 := Real.sqrt (sv * sv + 2 * cfg.max_accel * m.distance)
  if cv0 > m.max_cruise_v then m.max_cruise_v else cv0

/-- The end velocity the forward pass of `lookahead_process` assigns
(app/toolhead.c lines 475-483): the name for the `end_v` let-binding of
`lookahead_fwd`. -/
def fwd_ev (cfg : Config) (sv : ℝ) (m : LAMove) : ℝ :=
  let cv := fwd_cv cfg sv m
  let ev_sq := cv * cv - 2 * cfg.max_accel_to_decel * m.distance
  let ev0 := if ev_sq > 0 then Real.sqrt ev_sq else 0
  if ev0 > m.max_end_v then m.max_end_v else ev0

/-- The `max_start_v` the reverse pass of `lookahead_process` assigns
(app/toolhead.c lines 425-453), as a function of the entry's own
`max_end_v` (`mev`) and its predecessor `pm`: the name for the `msv`
let-chain of `lookahead_rev`. -/
def rev_msv (cfg : Config) (pm curr : LAMove) (mev : ℝ) : ℝ :=
  let msv0 := Real.sqrt (mev * mev + 2 * cfg.max_accel * curr.distance)
  let msv1 := if msv0 > curr.max_cruise_v then curr.max_cruise_v else msv0
  let jv := calc_junction_velocity cfg (dir_of pm) (dir_of curr) msv1
  if jv < msv1 then jv else msv1

/-- Scenario entry after the reverse pass: `max_end_v` overwritten
(`max_start_v` is written too, but with its unchanged value `ce_v`). -/
def ce_rev (j : ℕ) (mev : ℝ) : LAMove :=
  { ce_la j with max_end_v := mev }

/-- Scenario entry after the full lookahead pass: `max_end_v` from the
reverse pass, `start_v`/`end_v` from the forward pass (the forward pass
also writes `cruise_v`, with its unchanged value `ce_v`). -/
def ce_fin (j : ℕ) (mev sv ev : ℝ) : LAMove :=
  { ce_la j with max_end_v := mev, start_v := sv, end_v := ev }

/-- Observation of an appended trapq segment for the continuity check:
its stored start velocity and the velocity its stored law reaches at the
segment's end. -/
def ce_tsig (m : TMove) : ℝ × ℝ :=
  (m.start_v, move_end_velocity m)

/-- The same observation, predicted from the lookahead entry a segment is
emitted from (under the default configuration): `emit_move` stores the
entry's `start_v` and `cruise_v` and the generated `decel_t`. -/
def ce_lsig (m : LAMove) : ℝ × ℝ :=
  (m.start_v, m.cruise_v - 2 * (default_config.max_accel * 0.5) *
    (calc_trapezoidal_profile m.distance m.start_v m.cruise_v m.end_v
      default_config.max_accel).2.2)

end

end Toolhead

/- ================================================================
   Part 2: theorems
   ================================================================ -/

/- Helper lemmas (shared; not claim theorems). -/

theorem mem_sched_add_timer (t : Sched.Timer) :
    ∀ l : List Sched.Timer, t ∈ Sched.sched_add_timer t l
  | [] => by simp [Sched.sched_add_timer]
  | u :: rest => by
    unfold Sched.sched_add_timer
    split
    · exact List.mem_cons_self t (u :: rest)
    · exact List.mem_cons_of_mem u (mem_sched_add_timer t rest)

theorem move_alloc_scan_all_used (l : List Bool) (h : ∀ b ∈ l, b = true) :
    ∀ i, TrapqPool.move_alloc_scan i l = none := by
  induction l with
  | nil => intro i; rfl
  | cons b rest ih =>
    intro i
    have hb : b = true := h b (by simp)
    have hrest : ∀ x ∈ rest, x = true := fun x hx => h x (by simp [hx])
    simp [TrapqPool.move_alloc_scan, hb, ih hrest]

/-- C10: the scheduler pump's do-not-reschedule sentinel is the literal
wake-time value 0.  For any callback `f` — including one whose computed
next wake time is legitimately 0 on the wrapping 32-bit counter — a
returned 0 leaves the dispatched timer unregistered, and any nonzero
return re-registers the timer at exactly that wake time (sorted insert). -/
theorem C10_sched_zero_sentinel (f : ℕ → ℕ) (t : Sched.Timer) (rest : List Sched.Timer) :
    (f t.waketime = 0 → Sched.sched_dispatch_one f t rest = rest) ∧
    (f t.waketime ≠ 0 →
      Sched.sched_dispatch_one f t rest =
        Sched.sched_add_timer { t with waketime := f t.waketime } rest ∧
      { t with waketime := f t.waketime } ∈ Sched.sched_dispatch_one f t rest) := by
  constructor
  · intro h
    simp [Sched.sched_dispatch_one, h]
  · intro h
    refine ⟨by simp [Sched.sched_dispatch_one, h], ?_⟩
    simp only [Sched.sched_dispatch_one, if_pos h]
    exact mem_sched_add_timer _ rest

/-- Closed instance of `C10_sched_zero_sentinel`: a callback returning 0
drops the timer; one returning 7 re-registers it at wake time 7. -/
theorem C10_sched_zero_sentinel_witness :
    Sched.sched_dispatch_one (fun _ => 0) ⟨5, 1⟩ [] = [] ∧
    Sched.sched_dispatch_one (fun _ => 7) ⟨5, 1⟩ [] =
      Sched.sched_add_timer ⟨7, 1⟩ [] :=
  ⟨(C10_sched_zero_sentinel (fun _ => 0) ⟨5, 1⟩ []).1 rfl,
   ((C10_sched_zero_sentinel (fun _ => 7) ⟨5, 1⟩ []).2 (by decide)).1⟩

/-- C6 counterexample: for the in-range ADC reading 4000, which lies above
the largest table ADC value 3244, `ntc_adc_to_temp` returns
`HEATER_TEMP_MIN = 0` °C — not the −20 °C temperature of the cold table
endpoint that the claim states. -/
theorem C6_counterexample :
    Heater.ntc_adc_to_temp 4000 = 0 ∧
    (Heater.s_ntc_table.getLastD (0, 0)).2 = -200 ∧
    Heater.ntc_adc_to_temp 4000 ≠ -20 := by decide

/-- C6 (amended): ADC readings outside 0..4095 convert to the invalid
sentinel; readings below the smallest table value convert to
`HEATER_TEMP_MAX` = 300 °C (the hot table endpoint); readings above the
largest table value convert to `HEATER_TEMP_MIN` = 0 °C (not the cold
table endpoint of −20 °C). -/
theorem C6_ntc_boundaries :
    (∀ adc : ℤ, adc < 0 ∨ adc > Heater.ADC_MAX_VALUE →
      Heater.ntc_adc_to_temp adc = Heater.HEATER_TEMP_INVALID) ∧
    (∀ adc : ℤ, 0 ≤ adc → adc < 23 → Heater.ntc_adc_to_temp adc = 300) ∧
    (∀ adc : ℤ, 3244 < adc → adc ≤ 4095 → Heater.ntc_adc_to_temp adc = 0) := by
  refine ⟨fun adc h => ?_, fun adc h1 h2 => ?_, fun adc h1 h2 => ?_⟩
  · simp only [Heater.ntc_adc_to_temp, if_pos h]
  · have hg : ¬(adc < 0 ∨ adc > Heater.ADC_MAX_VALUE) := by
      unfold Heater.ADC_MAX_VALUE; omega
    have hf : adc < Heater.ntc_first_adc := by
      show adc < 23; omega
    simp only [Heater.ntc_adc_to_temp, if_neg hg, if_pos hf]
    rfl
  · have hg : ¬(adc < 0 ∨ adc > Heater.ADC_MAX_VALUE) := by
      unfold Heater.ADC_MAX_VALUE; omega
    have hf : ¬(adc < Heater.ntc_first_adc) := by
      show ¬(adc < 23); omega
    have hl : adc > Heater.ntc_last_adc := by
      show adc > 3244; omega
    simp only [Heater.ntc_adc_to_temp, if_neg hg, if_neg hf, if_pos hl]
    rfl

/-- Closed instance of `C6_ntc_boundaries` at ADC readings −7, 10, 4000. -/
theorem C6_ntc_boundaries_witness :
    Heater.ntc_adc_to_temp (-7) = Heater.HEATER_TEMP_INVALID ∧
    Heater.ntc_adc_to_temp 10 = 300 ∧
    Heater.ntc_adc_to_temp 4009 = 0 :=
  ⟨C6_ntc_boundaries.1 (-7) (by decide),
   C6_ntc_boundaries.2.1 10 (by decide) (by decide),
   C6_ntc_boundaries.2.2 4009 (by decide) (by decide)⟩

/-- C5 counterexample: with every one of the 32 pool slots in use,
`trapq_append` returns with the pool state and the queue unchanged — the
segment is silently discarded and, the C function being `void`, no
failure is reported to the caller, contrary to the claim that appending
when full fails the caller. -/
theorem C5_counterexample :
    TrapqPool.trapq_append ⟨List.replicate 32 true, []⟩ ⟨0, 1, 0, 0, 0, 10, 3000⟩ =
      ⟨List.replicate 32 true, []⟩ := by decide

/-- C5 (amended): appending to the trapezoidal queue when the bounded move
pool is exhausted silently discards the segment: `trapq_append` returns
with the whole state unchanged, and no failure indication exists (the C
return type is `void`). -/
theorem C5_trapq_append_full_drops (ps : TrapqPool.PoolState)
    (h : ∀ b ∈ ps.used, b = true) (args : TrapqPool.MoveArgs) :
    TrapqPool.trapq_append ps args = ps := by
  unfold TrapqPool.trapq_append TrapqPool.move_alloc
  rw [move_alloc_scan_all_used ps.used h 0]

/-- Closed instance of `C5_trapq_append_full_drops` on a full pool. -/
theorem C5_trapq_append_full_drops_witness :
    TrapqPool.trapq_append ⟨List.replicate 32 true, [(0, ⟨1, 2, 3, 4, 5, 6, 7⟩)]⟩
      ⟨1, 2, 3, 4, 5, 6, 7⟩ =
      ⟨List.replicate 32 true, [(0, ⟨1, 2, 3, 4, 5, 6, 7⟩)]⟩ :=
  C5_trapq_append_full_drops _ (by decide) _

/-- C4 (code evaluation at the failing input): the homing wait loop
`while (!s_home_ctx.triggered && s_print_time < timeout_time)` never
leaves by timeout when the endstop never triggers, because nothing in the
loop body advances `s_print_time`: for every fuel bound the loop is still
running (`none`), so `toolhead_home` neither terminates nor reports
`TOOLHEAD_ERR_HOMING` in that case. -/
theorem C4_homing_wait_never_times_out (endstop_hit : ℕ → Bool)
    (h : ∀ i, endstop_hit i = false) (pt : ℚ) (k fuel : ℕ) :
    Toolhead.toolhead_home_wait endstop_hit k fuel
      ⟨pt, pt + Toolhead.HOMING_TIMEOUT, false⟩ = none := by
  have hcond : (false = false ∧ pt < pt + Toolhead.HOMING_TIMEOUT) := by
    refine ⟨rfl, ?_⟩
    unfold Toolhead.HOMING_TIMEOUT
    linarith
  induction fuel generalizing k with
  | zero =>
    unfold Toolhead.toolhead_home_wait
    rw [if_pos hcond]
  | succ n ih =>
    unfold Toolhead.toolhead_home_wait
    rw [if_pos hcond]
    have hstep : Toolhead.home_wait_step endstop_hit k
        ⟨pt, pt + Toolhead.HOMING_TIMEOUT, false⟩ =
        ⟨pt, pt + Toolhead.HOMING_TIMEOUT, false⟩ := by
      simp [Toolhead.home_wait_step, h k]
    rw [hstep]
    exact ih (k + 1)

/-- Closed instance of `C4_homing_wait_never_times_out`. -/
theorem C4_homing_wait_never_times_out_witness :
    Toolhead.toolhead_home_wait (fun _ => false) 0 5
      ⟨0, 0 + Toolhead.HOMING_TIMEOUT, false⟩ = none :=
  C4_homing_wait_never_times_out (fun _ => false) (fun _ => rfl) 0 0 5

/-- C3 (code evaluation at the failing input): `execute_m109` on
`M109 S200` with the hotend reading 25 °C sets the target to 200 °C but
returns 0 immediately — its wait loop body is a bare `break` — leaving the
machine in a state where `heater_is_at_target` is false, contrary to the
claim that it returns only once the hotend is at target. -/
theorem C3_m109_returns_without_waiting :
    (Gcode.execute_m109
        (Gcode.gcode_parse_line ['M', '1', '0', '9', ' ', 'S', '2', '0', '0']).2
        ⟨25, 0, 0, 0, 0, false⟩).1 = 0 ∧
    (Gcode.execute_m109
        (Gcode.gcode_parse_line ['M', '1', '0', '9', ' ', 'S', '2', '0', '0']).2
        ⟨25, 0, 0, 0, 0, false⟩).2.target_temp = 200 ∧
    Heater.heater_is_at_target
      (Gcode.execute_m109
        (Gcode.gcode_parse_line ['M', '1', '0', '9', ' ', 'S', '2', '0', '0']).2
        ⟨25, 0, 0, 0, 0, false⟩).2.current_temp
      (Gcode.execute_m109
        (Gcode.gcode_parse_line ['M', '1', '0', '9', ' ', 'S', '2', '0', '0']).2
        ⟨25, 0, 0, 0, 0, false⟩).2.target_temp = false := by
  refine ⟨rfl, ?_, ?_⟩ <;>
  · simp [Gcode.execute_m109, Gcode.gcode_parse_line, Gcode.parse_command,
      Gcode.skip_whitespace, Gcode.read_code, Gcode.is_supported_gcode,
      Gcode.parse_parameters, Gcode.parse_params_loop, Gcode.parse_float,
      Gcode.pf_loop, Gcode.store_param, Gcode.gcode_cmd_clear, Gcode.isDig,
      Gcode.digit_val, Gcode.GCODE_OK, Heater.heater_set_temp,
      Heater.heater_is_at_target, Heater.HEATER_TEMP_MIN, Heater.HEATER_TEMP_MAX,
      Heater.HEATER_TEMP_TOLERANCE, Heater.PID_TARGET_CHANGE_THRESHOLD]
    norm_num

/-- C7: for every PID tick as invoked from `heater_task` (period
`dt = PID_DT`, target previously clamped into `[0, 300]` by
`heater_set_temp`, current temperature a valid NTC conversion, hence in
`[-20, 300]`), and from any prior accumulator and error state, the
returned output lies in `[0, max_power]` and the integral accumulator
satisfies `|integral| ≤ 100` after the update. -/
theorem C7_pid_bounds (st : Heater.HState) (p : Heater.PidParams) (current dt : ℚ)
    (hdt : dt = Heater.PID_DT)
    (ht0 : 0 ≤ st.target_temp) (ht1 : st.target_temp ≤ 300)
    (hc0 : -20 ≤ current) (hc1 : current ≤ 300) :
    0 ≤ (Heater.pid_update st p current dt).1 ∧
    (Heater.pid_update st p current dt).1 ≤ Heater.heater_max_power ∧
    |(Heater.pid_update st p current dt).2.integral| ≤ Heater.PID_INTEGRAL_MAX := by
  subst hdt
  have herr1 : st.target_temp - current ≤ 320 := by linarith
  have herr2 : -300 ≤ st.target_temp - current := by linarith
  unfold Heater.pid_update Heater.heater_max_power Heater.PID_INTEGRAL_MAX Heater.PID_DT
  simp only
  split_ifs <;>
    · simp only [abs_le]
      exact ⟨by linarith, by linarith, by linarith, by linarith⟩

/-- Closed instance of `C7_pid_bounds` at a cold-start tick (25 °C read,
200 °C target, hotend gains). -/
theorem C7_pid_bounds_witness :
    0 ≤ (Heater.pid_update ⟨25, 200, 0, 0, 0, true⟩ Heater.hotend_pid 25 Heater.PID_DT).1 ∧
    (Heater.pid_update ⟨25, 200, 0, 0, 0, true⟩ Heater.hotend_pid 25 Heater.PID_DT).1 ≤
      Heater.heater_max_power ∧
    |(Heater.pid_update ⟨25, 200, 0, 0, 0, true⟩ Heater.hotend_pid 25
        Heater.PID_DT).2.integral| ≤ Heater.PID_INTEGRAL_MAX :=
  C7_pid_bounds ⟨25, 200, 0, 0, 0, true⟩ Heater.hotend_pid 25 Heater.PID_DT rfl
    (by norm_num) (by norm_num) (by norm_num) (by norm_num)

theorem store_param_code_cmd (pc : Char) (v : ℚ) (cmd : Gcode.GcodeCmd) :
    (Gcode.store_param pc v cmd).code = cmd.code ∧
    (Gcode.store_param pc v cmd).cmd = cmd.cmd := by
  unfold Gcode.store_param
  split_ifs <;> exact ⟨rfl, rfl⟩

theorem parse_params_loop_code_cmd (fuel : ℕ) :
    ∀ (l : List Char) (acc : Gcode.GcodeCmd),
      (Gcode.parse_params_loop fuel l acc).code = acc.code ∧
      (Gcode.parse_params_loop fuel l acc).cmd = acc.cmd := by
  induction fuel with
  | zero => exact fun l acc => ⟨rfl, rfl⟩
  | succ n ih =>
    intro l acc
    unfold Gcode.parse_params_loop
    cases hsw : Gcode.skip_whitespace l with
    | nil => exact ⟨rfl, rfl⟩
    | cons c rest =>
      simp only
      by_cases h1 : c = '\n' ∨ c = '\r' ∨ c = ';'
      · rw [if_pos h1]
        exact ⟨rfl, rfl⟩
      · rw [if_neg h1]
        cases hpf : Gcode.parse_float rest with
        | some p =>
          rcases p with ⟨v, rest2⟩
          simp only [hpf]
          have h2 := ih rest2 (Gcode.store_param c.toUpper v acc)
          have h3 := store_param_code_cmd c.toUpper v acc
          exact ⟨h2.1.trans h3.1, h2.2.trans h3.2⟩
        | none =>
          simp only [hpf]
          by_cases h4 : acc.cmd = 'G' ∧ acc.code = 28
          · rw [if_pos h4]
            have h2 := ih rest (Gcode.store_param c.toUpper 0 acc)
            have h3 := store_param_code_cmd c.toUpper 0 acc
            exact ⟨h2.1.trans h3.1, h2.2.trans h3.2⟩
          · rw [if_neg h4]
            exact ih rest acc

theorem parse_parameters_code_cmd (l : List Char) (cmd : Gcode.GcodeCmd) :
    (Gcode.parse_parameters l cmd).code = cmd.code ∧
    (Gcode.parse_parameters l cmd).cmd = cmd.cmd := by
  unfold Gcode.parse_parameters
  exact parse_params_loop_code_cmd _ _ _

theorem gcode_parse_line_letter_only (l : List Char) (c : Char) (rest : List Char)
    (hskip : Gcode.skip_whitespace l = c :: rest)
    (hc : c = 'G' ∨ c = 'g' ∨ c = 'M' ∨ c = 'm')
    (hnd : Gcode.isDig (rest.headD ' ') = false) :
    ((c = 'G' ∨ c = 'g') →
      Gcode.gcode_parse_line l =
        (Gcode.GCODE_OK, Gcode.parse_parameters (c :: rest)
          { Gcode.gcode_cmd_clear with cmd := 'G', code := 0 })) ∧
    ((c = 'M' ∨ c = 'm') →
      Gcode.gcode_parse_line l = (Gcode.GCODE_ERR_UNKNOWN, Gcode.gcode_cmd_clear)) := by
  have hns : ¬(c = ' ' ∨ c = '\t') := by
    rcases hc with h | h | h | h <;> subst h <;> decide
  have hnl : ¬(c = '\n' ∨ c = '\r') := by
    rcases hc with h | h | h | h <;> subst h <;> decide
  have hnsemi : ¬(c = ';') := by
    rcases hc with h | h | h | h <;> subst h <;> decide
  have hsw2 : Gcode.skip_whitespace (c :: rest) = c :: rest := by
    unfold Gcode.skip_whitespace
    rw [if_neg hns]
  have hrc : Gcode.read_code rest 0 = 0 := by
    cases rest with
    | nil => rfl
    | cons r rs =>
      have hr : Gcode.isDig r = false := by simpa using hnd
      unfold Gcode.read_code
      simp [hr]
  constructor
  · intro hg
    have hcu : c.toUpper = 'G' := by rcases hg with h | h <;> subst h <;> decide
    have hpc : Gcode.parse_command (c :: rest) = (Gcode.GCODE_OK, 'G', 0) := by
      unfold Gcode.parse_command
      rw [hsw2]
      simp [hcu, hrc, Gcode.GCODE_OK]
    simp only [Gcode.gcode_parse_line, hskip, if_neg hnl, if_neg hnsemi, hpc]
    simp [Gcode.is_supported_gcode, Gcode.GCODE_OK]
  · intro hm
    have hcu : c.toUpper = 'M' := by rcases hm with h | h <;> subst h <;> decide
    have hpc : Gcode.parse_command (c :: rest) = (Gcode.GCODE_OK, 'M', 0) := by
      unfold Gcode.parse_command
      rw [hsw2]
      simp [hcu, hrc, Gcode.GCODE_OK]
    simp only [Gcode.gcode_parse_line, hskip, if_neg hnl, if_neg hnsemi, hpc]
    simp [Gcode.is_supported_gcode, Gcode.GCODE_OK, Gcode.GCODE_ERR_UNKNOWN]

/-- C9 (amended): a line whose first non-blank character is a valid
command letter (`G`/`M`, either case) but which has no decimal digits
after the letter is parsed as code 0, not rejected: the parse never
returns the invalid-command error, a `G` line is dispatched as G0 and
answered "ok", and an `M` line is answered "error: unknown command"
(M0 is unsupported).  Only a non-G/M first letter yields
"error: invalid command". -/
theorem C9_codeless_line_is_code_zero (l : List Char) (c : Char) (rest : List Char)
    (hskip : Gcode.skip_whitespace l = c :: rest)
    (hc : c = 'G' ∨ c = 'g' ∨ c = 'M' ∨ c = 'm')
    (hnd : Gcode.isDig (rest.headD ' ') = false) :
    (Gcode.gcode_parse_line l).1 ≠ Gcode.GCODE_ERR_INVALID ∧
    ((c = 'G' ∨ c = 'g') →
      (Gcode.gcode_parse_line l).1 = Gcode.GCODE_OK ∧
      (Gcode.gcode_parse_line l).2.cmd = 'G' ∧
      (Gcode.gcode_parse_line l).2.code = 0 ∧
      Gcode.line_response l = "ok") ∧
    ((c = 'M' ∨ c = 'm') →
      (Gcode.gcode_parse_line l).1 = Gcode.GCODE_ERR_UNKNOWN ∧
      Gcode.line_response l = "error: unknown command") := by
  have hmain := gcode_parse_line_letter_only l c rest hskip hc hnd
  have hG : (c = 'G' ∨ c = 'g') →
      (Gcode.gcode_parse_line l).1 = Gcode.GCODE_OK ∧
      (Gcode.gcode_parse_line l).2.cmd = 'G' ∧
      (Gcode.gcode_parse_line l).2.code = 0 ∧
      Gcode.line_response l = "ok" := by
    intro hg
    have heq := hmain.1 hg
    have hcode := parse_parameters_code_cmd (c :: rest)
      { Gcode.gcode_cmd_clear with cmd := 'G', code := 0 }
    refine ⟨by rw [heq], by rw [heq]; exact hcode.2, by rw [heq]; exact hcode.1, ?_⟩
    unfold Gcode.line_response
    rw [heq]
    simp only [Gcode.gcode_execute_retcode, hcode.1, hcode.2]
    simp [Gcode.is_supported_gcode, Gcode.GCODE_OK]
  have hM : (c = 'M' ∨ c = 'm') →
      (Gcode.gcode_parse_line l).1 = Gcode.GCODE_ERR_UNKNOWN ∧
      Gcode.line_response l = "error: unknown command" := by
    intro hm
    have heq := hmain.2 hm
    refine ⟨by rw [heq], ?_⟩
    unfold Gcode.line_response
    rw [heq]
    simp [Gcode.GCODE_OK, Gcode.GCODE_ERR_UNKNOWN, Gcode.GCODE_ERR_EMPTY,
      Gcode.GCODE_ERR_COMMENT]
  refine ⟨?_, hG, hM⟩
  rcases hc with h | h | h | h
  · rw [(hG (Or.inl h)).1]; decide
  · rw [(hG (Or.inr h)).1]; decide
  · rw [(hM (Or.inl h)).1]; decide
  · rw [(hM (Or.inr h)).1]; decide

/-- C9 counterexample: the line "G" — first non-blank character a valid
command letter, no decimal digits after it — is parsed successfully as G0
and answered "ok", not reported as an invalid command. -/
theorem C9_counterexample :
    (Gcode.gcode_parse_line ['G']).1 = Gcode.GCODE_OK ∧
    (Gcode.gcode_parse_line ['G']).2.cmd = 'G' ∧
    (Gcode.gcode_parse_line ['G']).2.code = 0 ∧
    Gcode.line_response ['G'] = "ok" ∧
    Gcode.line_response ['G'] ≠ "error: invalid command" := by
  simp [Gcode.gcode_parse_line, Gcode.parse_command, Gcode.skip_whitespace,
    Gcode.read_code, Gcode.is_supported_gcode, Gcode.parse_parameters,
    Gcode.parse_params_loop, Gcode.parse_float, Gcode.pf_loop, Gcode.store_param,
    Gcode.gcode_cmd_clear, Gcode.isDig, Gcode.digit_val, Gcode.GCODE_OK,
    Gcode.line_response, Gcode.gcode_execute_retcode]

/-- Closed instance of `C9_codeless_line_is_code_zero` on the lines "G"
and "M". -/
theorem C9_codeless_line_witness :
    ((Gcode.gcode_parse_line ['G']).1 = Gcode.GCODE_OK ∧
      (Gcode.gcode_parse_line ['G']).2.cmd = 'G' ∧
      (Gcode.gcode_parse_line ['G']).2.code = 0 ∧
      Gcode.line_response ['G'] = "ok") ∧
    ((Gcode.gcode_parse_line ['M']).1 = Gcode.GCODE_ERR_UNKNOWN ∧
      Gcode.line_response ['M'] = "error: unknown command") :=
  ⟨(C9_codeless_line_is_code_zero ['G'] 'G' [] (by decide) (by decide)
      (by decide)).2.1 (by decide),
   (C9_codeless_line_is_code_zero ['M'] 'M' [] (by decide) (by decide)
      (by decide)).2.2 (by decide)⟩

theorem c2_move_distance_eval :
    Toolhead.calc_move_distance Toolhead.toolhead_init_state.commanded_pos
      ⟨300, 0, 0, 0⟩ = 300 := by
  unfold Toolhead.calc_move_distance Toolhead.toolhead_init_state
  norm_num
  rw [show (90000 : ℝ) = 300 ^ 2 by norm_num, Real.sqrt_sq (by norm_num)]

theorem c2_toolhead_move_eval :
    Toolhead.toolhead_move Toolhead.toolhead_init_state ⟨300, 0, 0, 0⟩ 50 =
      (Toolhead.TOOLHEAD_ERR_LIMIT, Toolhead.toolhead_init_state) := by
  simp only [Toolhead.toolhead_move, c2_move_distance_eval]
  rw [if_neg (by norm_num [Toolhead.MIN_MOVE_DISTANCE])]
  rw [if_pos]
  norm_num [Toolhead.toolhead_init_state, Toolhead.X_MIN, Toolhead.X_MAX]

theorem c2_parse_eval :
    (Gcode.gcode_parse_line ['G', '1', ' ', 'X', '3', '0', '0']).2 =
      { Gcode.gcode_cmd_clear with cmd := 'G', code := 1, x := 300, has_x := true } := by
  simp [Gcode.gcode_parse_line, Gcode.parse_command, Gcode.skip_whitespace,
    Gcode.read_code, Gcode.is_supported_gcode, Gcode.parse_parameters,
    Gcode.parse_params_loop, Gcode.parse_float, Gcode.pf_loop, Gcode.store_param,
    Gcode.gcode_cmd_clear, Gcode.isDig, Gcode.digit_val, Gcode.GCODE_OK]
  norm_num

/-- C2 (code evaluation at the failing input): the move commanded by
`G1 X300` (absolute mode, from commanded position (0,0,0,0), feedrate 3000
mm/min, so speed 50 mm/s) fails the axis-limit check —
`toolhead_move` returns `TOOLHEAD_ERR_LIMIT` and leaves the motion core's
commanded position at 0 — yet `execute_g0_g1` discards that error: it
returns 0 (so the line is answered "ok", never "error: execution failed")
and advances the parser's visible position mirror to `X = 300`, which is
what M114 then reports.  This contradicts the claim that the visible
commanded position is unchanged after a failed move. -/
theorem C2_failed_move_advances_gcode_position :
    (Toolhead.toolhead_move Toolhead.toolhead_init_state ⟨300, 0, 0, 0⟩ 50).1 =
      Toolhead.TOOLHEAD_ERR_LIMIT ∧
    (Toolhead.toolhead_move Toolhead.toolhead_init_state
      ⟨300, 0, 0, 0⟩ 50).2.commanded_pos.x = 0 ∧
    (Toolhead.execute_g0_g1 (Gcode.gcode_parse_line ['G', '1', ' ', 'X', '3', '0', '0']).2
      Toolhead.gcode_init_state Toolhead.toolhead_init_state).1 = 0 ∧
    (Toolhead.execute_g0_g1 (Gcode.gcode_parse_line ['G', '1', ' ', 'X', '3', '0', '0']).2
      Toolhead.gcode_init_state Toolhead.toolhead_init_state).2.1.pos.x = 300 ∧
    (Toolhead.execute_g0_g1 (Gcode.gcode_parse_line ['G', '1', ' ', 'X', '3', '0', '0']).2
      Toolhead.gcode_init_state Toolhead.toolhead_init_state).2.2.commanded_pos.x = 0 := by
  have hmove := c2_toolhead_move_eval
  refine ⟨by rw [hmove], by rw [hmove]; rfl, ?_, ?_, ?_⟩
  · rfl
  · simp [Toolhead.execute_g0_g1, c2_parse_eval, Toolhead.gcode_init_state,
      Toolhead.toolhead_init_state, Gcode.gcode_cmd_clear]
  · have : Toolhead.execute_g0_g1
        (Gcode.gcode_parse_line ['G', '1', ' ', 'X', '3', '0', '0']).2
        Toolhead.gcode_init_state Toolhead.toolhead_init_state =
        (0, ⟨true, 3000, ⟨300, 0, 0, 0⟩⟩,
          (Toolhead.toolhead_move Toolhead.toolhead_init_state ⟨300, 0, 0, 0⟩ 50).2) := by
      simp [Toolhead.execute_g0_g1, c2_parse_eval, Toolhead.gcode_init_state,
        Toolhead.toolhead_init_state, Gcode.gcode_cmd_clear]
      norm_num
    rw [this, hmove]
    rfl

theorem mgd_accel_run (m : Toolhead.TMove) (t : ℝ) (h1 : 0 < t)
    (h2 : 0 < m.accel_t) (h3 : m.accel_t ≤ t) :
    Toolhead.mgd_accel m t =
      (m.start_v * m.accel_t + m.half_accel * m.accel_t * m.accel_t, t - m.accel_t) := by
  unfold Toolhead.mgd_accel
  rw [if_pos ⟨h1, h2⟩, if_neg (not_lt.2 h3)]

theorem mgd_accel_skip (m : Toolhead.TMove) (t : ℝ) (h : m.accel_t ≤ 0) :
    Toolhead.mgd_accel m t = (0, t) := by
  unfold Toolhead.mgd_accel
  rw [if_neg]
  rintro ⟨-, hpos⟩
  exact absurd hpos (not_lt.2 h)

theorem mgd_cruise_run (m : Toolhead.TMove) (s : ℝ × ℝ) (h1 : 0 < s.2)
    (h2 : 0 < m.cruise_t) (h3 : m.cruise_t ≤ s.2) :
    Toolhead.mgd_cruise m s = (s.1 + m.cruise_v * m.cruise_t, s.2 - m.cruise_t) := by
  unfold Toolhead.mgd_cruise
  rw [if_pos ⟨h1, h2⟩, if_neg (not_lt.2 h3)]

theorem mgd_cruise_skip (m : Toolhead.TMove) (s : ℝ × ℝ) (h : m.cruise_t ≤ 0) :
    Toolhead.mgd_cruise m s = s := by
  unfold Toolhead.mgd_cruise
  rw [if_neg]
  rintro ⟨-, hpos⟩
  exact absurd hpos (not_lt.2 h)

theorem mgd_decel_run (m : Toolhead.TMove) (s : ℝ × ℝ) (h1 : 0 < s.2)
    (h2 : 0 < m.decel_t) :
    Toolhead.mgd_decel m s =
      s.1 + m.cruise_v * (if s.2 < m.decel_t then s.2 else m.decel_t) -
        m.half_accel * (if s.2 < m.decel_t then s.2 else m.decel_t) *
          (if s.2 < m.decel_t then s.2 else m.decel_t) := by
  unfold Toolhead.mgd_decel
  rw [if_pos ⟨h1, h2⟩]

theorem mgd_decel_skip (m : Toolhead.TMove) (s : ℝ × ℝ) (h : m.decel_t ≤ 0) :
    Toolhead.mgd_decel m s = s.1 := by
  unfold Toolhead.mgd_decel
  rw [if_neg]
  rintro ⟨-, hpos⟩
  exact absurd hpos (not_lt.2 h)

theorem move_get_distance_at_end (m : Toolhead.TMove)
    (hat : 0 ≤ m.accel_t) (hct : 0 ≤ m.cruise_t) (hdt : 0 ≤ m.decel_t)
    (hmt : m.move_t = m.accel_t + m.cruise_t + m.decel_t)
    (hpos : 0 < m.move_t) :
    Toolhead.move_get_distance m m.move_t =
      (if 0 < m.accel_t then
        m.start_v * m.accel_t + m.half_accel * m.accel_t * m.accel_t else 0) +
      (if 0 < m.cruise_t then m.cruise_v * m.cruise_t else 0) +
      (if 0 < m.decel_t then
        m.cruise_v * m.decel_t - m.half_accel * m.decel_t * m.decel_t else 0) := by
  unfold Toolhead.move_get_distance
  rw [if_neg (not_le.2 hpos), if_pos (le_refl m.move_t)]
  show Toolhead.mgd_decel m (Toolhead.mgd_cruise m (Toolhead.mgd_accel m m.move_t)) = _
  rcases lt_or_le 0 m.accel_t with h1 | h1
  case inr =>
    have ha0 : m.accel_t = 0 := le_antisymm h1 hat
    rw [mgd_accel_skip m _ h1]
    rcases lt_or_le 0 m.cruise_t with h2 | h2
    case inr =>
      have hc0 : m.cruise_t = 0 := le_antisymm h2 hct
      rw [mgd_cruise_skip m _ h2]
      rcases lt_or_le 0 m.decel_t with h3 | h3
      case inr =>
        have hd0 : m.decel_t = 0 := le_antisymm h3 hdt
        rw [mgd_decel_skip m _ h3, if_neg (not_lt.2 h1), if_neg (not_lt.2 h2),
          if_neg (not_lt.2 h3)]
        norm_num
      case inl =>
        rw [mgd_decel_run m _ (by simpa [hmt, ha0, hc0] using h3) h3,
          if_neg (not_lt.2 h1), if_neg (not_lt.2 h2), if_pos h3]
        simp [hmt, ha0, hc0]
    case inl =>
      rw [mgd_cruise_run m _ (by simp only; linarith) h2 (by simp only; linarith)]
      rcases lt_or_le 0 m.decel_t with h3 | h3
      case inr =>
        have hd0 : m.decel_t = 0 := le_antisymm h3 hdt
        rw [mgd_decel_skip m _ h3, if_neg (not_lt.2 h1), if_pos h2,
          if_neg (not_lt.2 h3)]
        simp
      case inl =>
        rw [mgd_decel_run m _ (by simp only; linarith) h3,
          if_neg (not_lt.2 h1), if_pos h2, if_pos h3]
        have htd : ¬(m.move_t - m.cruise_t < m.decel_t) := by linarith
        rw [if_neg htd]
        simp
        ring
  case inl =>
    rw [mgd_accel_run m _ hpos h1 (by linarith)]
    rcases lt_or_le 0 m.cruise_t with h2 | h2
    case inr =>
      have hc0 : m.cruise_t = 0 := le_antisymm h2 hct
      rw [mgd_cruise_skip m _ h2]
      rcases lt_or_le 0 m.decel_t with h3 | h3
      case inr =>
        have hd0 : m.decel_t = 0 := le_antisymm h3 hdt
        rw [mgd_decel_skip m _ h3, if_pos h1, if_neg (not_lt.2 h2),
          if_neg (not_lt.2 h3)]
        simp
      case inl =>
        rw [mgd_decel_run m _ (by simp only; linarith) h3,
          if_pos h1, if_neg (not_lt.2 h2), if_pos h3]
        have htd : ¬(m.move_t - m.accel_t < m.decel_t) := by linarith
        rw [if_neg htd]
        simp [hmt, hc0]
        ring
    case inl =>
      rw [mgd_cruise_run m _ (by simp only; linarith) h2 (by simp only; linarith)]
      rcases lt_or_le 0 m.decel_t with h3 | h3
      case inr =>
        have hd0 : m.decel_t = 0 := le_antisymm h3 hdt
        rw [mgd_decel_skip m _ h3, if_pos h1, if_pos h2, if_neg (not_lt.2 h3)]
        simp
      case inl =>
        rw [mgd_decel_run m _ (by simp only; linarith) h3,
          if_pos h1, if_pos h2, if_pos h3]
        have htd : ¬(m.move_t - m.accel_t - m.cruise_t < m.decel_t) := by linarith
        rw [if_neg htd]
        simp
        ring

theorem calc_profile_cruise (d sv cv ev a : ℝ) (ha : 0 < a) (hsv : sv ≤ cv) (hev : ev ≤ cv)
    (hfit : (cv * cv - sv * sv) / (2 * a) + (cv * cv - ev * ev) / (2 * a) ≤ d) :
    Toolhead.calc_trapezoidal_profile d sv cv ev a =
      (if cv > sv then (cv - sv) / a else 0,
       (d - (cv * cv - sv * sv) / (2 * a) - (cv * cv - ev * ev) / (2 * a)) / cv,
       if cv > ev then (cv - ev) / a else 0) := by
  have e1 : ∀ x y : ℝ, (y + x) * 0.5 * ((x - y) / a) = (x * x - y * y) / (2 * a) := by
    intro x y
    field_simp
    ring
  simp only [Toolhead.calc_trapezoidal_profile]
  by_cases h1 : cv > sv <;> by_cases h2 : cv > ev <;>
    simp only [h1, h2, if_true, if_false, ite_true, ite_false, if_pos, if_neg,
      not_false_iff, not_true]
  · have hsv2 : (sv + cv) * 0.5 * ((cv - sv) / a) = (cv * cv - sv * sv) / (2 * a) := e1 cv sv
    have hev2 : (ev + cv) * 0.5 * ((cv - ev) / a) = (cv * cv - ev * ev) / (2 * a) := e1 cv ev
    rw [show (cv + ev) * 0.5 * ((cv - ev) / a) = (ev + cv) * 0.5 * ((cv - ev) / a) by ring,
      hsv2, hev2, if_neg (by linarith)]
  · have hce : cv = ev := le_antisymm (not_lt.1 h2) hev
    have h0 : (cv * cv - ev * ev) / (2 * a) = 0 := by rw [hce, sub_self, zero_div]
    have hsv2 : (sv + cv) * 0.5 * ((cv - sv) / a) = (cv * cv - sv * sv) / (2 * a) := e1 cv sv
    rw [h0] at hfit
    rw [hsv2, if_neg (by push_neg; linarith)]
    refine Prod.ext rfl (Prod.ext ?_ rfl)
    simp only
    rw [h0]
  · have hcs : cv = sv := le_antisymm (not_lt.1 h1) hsv
    have h0 : (cv * cv - sv * sv) / (2 * a) = 0 := by rw [hcs, sub_self, zero_div]
    have hev2 : (ev + cv) * 0.5 * ((cv - ev) / a) = (cv * cv - ev * ev) / (2 * a) := e1 cv ev
    rw [h0] at hfit
    rw [show (cv + ev) * 0.5 * ((cv - ev) / a) = (ev + cv) * 0.5 * ((cv - ev) / a) by ring,
      hev2, if_neg (by push_neg; linarith)]
    refine Prod.ext rfl (Prod.ext ?_ rfl)
    simp only
    rw [h0]
  · have hcs : cv = sv := le_antisymm (not_lt.1 h1) hsv
    have hce : cv = ev := le_antisymm (not_lt.1 h2) hev
    have h0s : (cv * cv - sv * sv) / (2 * a) = 0 := by rw [hcs, sub_self, zero_div]
    have h0e : (cv * cv - ev * ev) / (2 * a) = 0 := by rw [hce]; rw [sub_self, zero_div]
    rw [h0s, h0e] at hfit
    rw [if_neg (by push_neg; linarith)]
    refine Prod.ext rfl (Prod.ext ?_ rfl)
    simp only
    rw [h0s, h0e]

/-- C8 (amended): when the acceleration and deceleration distances fit
within the move (`(cv²-sv²)/(2a) + (cv²-ev²)/(2a) ≤ d`, which is exactly
the condition for the profile generator's cruise branch) and the cruise
velocity is positive, the segment appended from the generated profile
stores `move_t = accel_t + cruise_t + decel_t` and evaluating the
trapezoidal distance law at the full duration returns exactly the
commanded distance `d` (so in particular within 1 part in 10⁶).  Outside
this condition the generator's peak-velocity branch recomputes the ramp
times but `trapq_append` still stores the original `cruise_v`, and closure
fails (see the counterexample). -/
theorem C8_profile_closure (d sv cv ev a : ℝ)
    (hd : 0 < d) (ha : 0 < a) (hsv0 : 0 ≤ sv) (hev0 : 0 ≤ ev)
    (hsv : sv ≤ cv) (hev : ev ≤ cv) (hcv : 0 < cv)
    (hfit : (cv * cv - sv * sv) / (2 * a) + (cv * cv - ev * ev) / (2 * a) ≤ d) :
    ((Toolhead.trapq_append ⟨[], [], []⟩ 0
        (Toolhead.calc_trapezoidal_profile d sv cv ev a).1
        (Toolhead.calc_trapezoidal_profile d sv cv ev a).2.1
        (Toolhead.calc_trapezoidal_profile d sv cv ev a).2.2
        ⟨0, 0, 0, 0⟩ ⟨1, 0, 0, 0⟩ sv cv a).moves.headD Toolhead.dummyTMove).move_t =
      (Toolhead.calc_trapezoidal_profile d sv cv ev a).1 +
      (Toolhead.calc_trapezoidal_profile d sv cv ev a).2.1 +
      (Toolhead.calc_trapezoidal_profile d sv cv ev a).2.2 ∧
    Toolhead.move_get_distance
      ((Toolhead.trapq_append ⟨[], [], []⟩ 0
          (Toolhead.calc_trapezoidal_profile d sv cv ev a).1
          (Toolhead.calc_trapezoidal_profile d sv cv ev a).2.1
          (Toolhead.calc_trapezoidal_profile d sv cv ev a).2.2
          ⟨0, 0, 0, 0⟩ ⟨1, 0, 0, 0⟩ sv cv a).moves.headD Toolhead.dummyTMove)
      ((Toolhead.trapq_append ⟨[], [], []⟩ 0
          (Toolhead.calc_trapezoidal_profile d sv cv ev a).1
          (Toolhead.calc_trapezoidal_profile d sv cv ev a).2.1
          (Toolhead.calc_trapezoidal_profile d sv cv ev a).2.2
          ⟨0, 0, 0, 0⟩ ⟨1, 0, 0, 0⟩ sv cv a).moves.headD
        Toolhead.dummyTMove).move_t = d := by
  show
    let prof := Toolhead.calc_trapezoidal_profile d sv cv ev a
    let m := (Toolhead.trapq_append ⟨[], [], []⟩ 0 prof.1 prof.2.1 prof.2.2
      ⟨0, 0, 0, 0⟩ ⟨1, 0, 0, 0⟩ sv cv a).moves.headD Toolhead.dummyTMove
    m.move_t = prof.1 + prof.2.1 + prof.2.2 ∧
    Toolhead.move_get_distance m m.move_t = d
  intro prof m
  have hprofv : prof =
      (if cv > sv then (cv - sv) / a else 0,
       (d - (cv * cv - sv * sv) / (2 * a) - (cv * cv - ev * ev) / (2 * a)) / cv,
       if cv > ev then (cv - ev) / a else 0) :=
    calc_profile_cruise d sv cv ev a ha hsv hev hfit
  have hm_at : m.accel_t = (if cv > sv then (cv - sv) / a else 0) := by
    show prof.1 = _
    rw [hprofv]
  have hm_ct : m.cruise_t =
      (d - (cv * cv - sv * sv) / (2 * a) - (cv * cv - ev * ev) / (2 * a)) / cv := by
    show prof.2.1 = _
    rw [hprofv]
  have hm_dt : m.decel_t = (if cv > ev then (cv - ev) / a else 0) := by
    show prof.2.2 = _
    rw [hprofv]
  have hm_sv : m.start_v = sv := rfl
  have hm_cv : m.cruise_v = cv := rfl
  have hm_ha : m.half_accel = a * 0.5 := rfl
  have hm_mt : m.move_t = m.accel_t + m.cruise_t + m.decel_t := rfl
  have hA0 : 0 ≤ (cv * cv - sv * sv) / (2 * a) :=
    div_nonneg (by nlinarith) (by linarith)
  have hD0 : 0 ≤ (cv * cv - ev * ev) / (2 * a) :=
    div_nonneg (by nlinarith) (by linarith)
  have hat : 0 ≤ m.accel_t := by
    rw [hm_at]
    split_ifs with h
    · exact div_nonneg (by linarith) ha.le
    · exact le_refl 0
  have hct : 0 ≤ m.cruise_t := by
    rw [hm_ct]
    exact div_nonneg (by linarith) hcv.le
  have hdt : 0 ≤ m.decel_t := by
    rw [hm_dt]
    split_ifs with h
    · exact div_nonneg (by linarith) ha.le
    · exact le_refl 0
  have hpos : 0 < m.move_t := by
    rw [hm_mt]
    by_cases h1 : cv > sv
    · have : 0 < m.accel_t := by
        rw [hm_at, if_pos h1]
        exact div_pos (by linarith) ha
      linarith
    · have hcs : cv = sv := le_antisymm (not_lt.1 h1) hsv
      by_cases h2 : cv > ev
      · have : 0 < m.decel_t := by
          rw [hm_dt, if_pos h2]
          exact div_pos (by linarith) ha
        linarith
      · have hce : cv = ev := le_antisymm (not_lt.1 h2) hev
        have h0s : (cv * cv - sv * sv) / (2 * a) = 0 := by rw [hcs, sub_self, zero_div]
        have h0e : (cv * cv - ev * ev) / (2 * a) = 0 := by
          rw [hce, sub_self, zero_div]
        have : 0 < m.cruise_t := by
          rw [hm_ct, h0s, h0e]
          exact div_pos (by linarith) hcv
        linarith
  refine ⟨hm_mt, ?_⟩
  rw [move_get_distance_at_end m hat hct hdt hm_mt hpos]
  have hiteA : (if 0 < m.accel_t then
      m.start_v * m.accel_t + m.half_accel * m.accel_t * m.accel_t else 0) =
      (cv * cv - sv * sv) / (2 * a) := by
    by_cases h1 : cv > sv
    · have hatpos : 0 < m.accel_t := by
        rw [hm_at, if_pos h1]
        exact div_pos (by linarith) ha
      rw [if_pos hatpos, hm_at, if_pos h1, hm_sv, hm_ha]
      field_simp
      ring
    · have hcs : cv = sv := le_antisymm (not_lt.1 h1) hsv
      have hat0 : m.accel_t = 0 := by rw [hm_at, if_neg h1]
      rw [if_neg (by rw [hat0]; exact lt_irrefl 0), hcs, sub_self, zero_div]
  have hiteD : (if 0 < m.decel_t then
      m.cruise_v * m.decel_t - m.half_accel * m.decel_t * m.decel_t else 0) =
      (cv * cv - ev * ev) / (2 * a) := by
    by_cases h2 : cv > ev
    · have hdtpos : 0 < m.decel_t := by
        rw [hm_dt, if_pos h2]
        exact div_pos (by linarith) ha
      rw [if_pos hdtpos, hm_dt, if_pos h2, hm_cv, hm_ha]
      field_simp
      ring
    · have hce : cv = ev := le_antisymm (not_lt.1 h2) hev
      have hdt0 : m.decel_t = 0 := by rw [hm_dt, if_neg h2]
      rw [if_neg (by rw [hdt0]; exact lt_irrefl 0), hce, sub_self, zero_div]
  have hiteC : (if 0 < m.cruise_t then m.cruise_v * m.cruise_t else 0) =
      d - (cv * cv - sv * sv) / (2 * a) - (cv * cv - ev * ev) / (2 * a) := by
    by_cases hc : 0 < m.cruise_t
    · rw [if_pos hc, hm_cv, hm_ct, mul_comm, div_mul_cancel₀ _ (ne_of_gt hcv)]
    · have hc0 : m.cruise_t = 0 := le_antisymm (not_lt.1 hc) hct
      have : d - (cv * cv - sv * sv) / (2 * a) - (cv * cv - ev * ev) / (2 * a) = 0 := by
        have := hc0
        rw [hm_ct, div_eq_zero_iff] at this
        rcases this with h | h
        · exact h
        · exact absurd h (ne_of_gt hcv)
      rw [if_neg hc, this]
  rw [hiteA, hiteC, hiteD]
  ring

theorem calc_profile_peak_clamped_sv (d cv ev a : ℝ) (hev : ev < cv)
    (hneg : d - 0 - (cv + ev) * 0.5 * ((cv - ev) / a) < 0)
    (hpk : Real.sqrt ((cv * cv + ev * ev) * 0.5 + a * d) < cv) :
    Toolhead.calc_trapezoidal_profile d cv cv ev a = (0, 0, (cv - ev) / a) := by
  simp only [Toolhead.calc_trapezoidal_profile]
  rw [if_neg (lt_irrefl cv), if_neg (lt_irrefl cv), if_pos hev, if_pos hev,
    if_pos hneg, if_pos hpk, if_neg (not_lt.2 (le_of_lt hev)),
    if_neg (lt_irrefl cv), if_pos hev]

theorem c8_sqrt53_lt : Real.sqrt 53 < 10 := by
  rw [show (10 : ℝ) = Real.sqrt 100 by
    rw [show (100 : ℝ) = 10 ^ 2 by norm_num, Real.sqrt_sq (by norm_num)]]
  exact Real.sqrt_lt_sqrt (by norm_num) (by norm_num)

theorem c8_prof_eval :
    Toolhead.calc_trapezoidal_profile (1 / 1000) 10 10 0 3000 = (0, 0, 1 / 300) := by
  have h := calc_profile_peak_clamped_sv (1 / 1000) 10 0 3000 (by norm_num)
    (by norm_num)
    (by rw [show ((10 : ℝ) * 10 + 0 * 0) * 0.5 + 3000 * (1 / 1000) = 53 by norm_num]
        exact c8_sqrt53_lt)
  rw [h]
  norm_num

theorem move_get_distance_decel_only (m : Toolhead.TMove)
    (hat : m.accel_t = 0) (hct : m.cruise_t = 0) (hmt : m.move_t = m.decel_t)
    (hpos : 0 < m.decel_t) :
    Toolhead.move_get_distance m m.move_t =
      m.cruise_v * m.decel_t - m.half_accel * m.decel_t * m.decel_t := by
  unfold Toolhead.move_get_distance
  rw [hmt, if_neg (not_le.2 hpos), if_pos (le_refl _)]
  show Toolhead.mgd_decel m (Toolhead.mgd_cruise m (Toolhead.mgd_accel m m.decel_t)) = _
  rw [mgd_accel_skip m _ (le_of_eq hat), mgd_cruise_skip m _ (le_of_eq hct)]
  unfold Toolhead.mgd_decel
  rw [if_pos ⟨hpos, hpos⟩]
  simp only
  rw [if_neg (lt_irrefl m.decel_t)]
  ring

/-- C8 counterexample: the profile generator invoked with `d = 1/1000`,
`start_v = cruise_v = 10`, `end_v = 0`, `a = 3000` (which satisfies the
claim's stated hypotheses `start_v ≤ cruise_v`, `end_v ≤ cruise_v`,
`a > 0`, `d > 0`) takes the peak-clamped branch; the appended segment
evaluates the trapezoidal distance law at its full duration to `1/60` mm —
off from the commanded `1/1000` mm by more than a factor of 16, far
outside 1 part in 10⁶. -/
theorem C8_counterexample :
    Toolhead.move_get_distance
      ((Toolhead.trapq_append ⟨[], [], []⟩ 0
          (Toolhead.calc_trapezoidal_profile (1 / 1000) 10 10 0 3000).1
          (Toolhead.calc_trapezoidal_profile (1 / 1000) 10 10 0 3000).2.1
          (Toolhead.calc_trapezoidal_profile (1 / 1000) 10 10 0 3000).2.2
          ⟨0, 0, 0, 0⟩ ⟨1, 0, 0, 0⟩ 10 10 3000).moves.headD Toolhead.dummyTMove)
      ((Toolhead.trapq_append ⟨[], [], []⟩ 0
          (Toolhead.calc_trapezoidal_profile (1 / 1000) 10 10 0 3000).1
          (Toolhead.calc_trapezoidal_profile (1 / 1000) 10 10 0 3000).2.1
          (Toolhead.calc_trapezoidal_profile (1 / 1000) 10 10 0 3000).2.2
          ⟨0, 0, 0, 0⟩ ⟨1, 0, 0, 0⟩ 10 10 3000).moves.headD
        Toolhead.dummyTMove).move_t = 1 / 60 ∧
    ¬(|(1 : ℝ) / 60 - 1 / 1000| ≤ (1 / 1000) * (1 / 1000000)) := by
  constructor
  · rw [c8_prof_eval]
    show Toolhead.move_get_distance Toolhead.c8_move Toolhead.c8_move.move_t = 1 / 60
    rw [move_get_distance_decel_only Toolhead.c8_move rfl rfl
      (by simp [Toolhead.c8_move]) (by norm_num [Toolhead.c8_move])]
    norm_num [Toolhead.c8_move]
  · intro hcon
    rw [abs_le] at hcon
    have h2 := hcon.2
    norm_num at h2

/-- Witness for `C8_profile_closure`: the command `d = 1` mm, `start_v = 0`,
`cruise_v = 1`, `end_v = 0`, `a = 2` satisfies the fit hypothesis
(`1/4 + 1/4 ≤ 1`), and the enqueued move's duration and distance close
exactly. -/
theorem C8_profile_closure_witness :
    ((Toolhead.trapq_append ⟨[], [], []⟩ 0
        (Toolhead.calc_trapezoidal_profile 1 0 1 0 2).1
        (Toolhead.calc_trapezoidal_profile 1 0 1 0 2).2.1
        (Toolhead.calc_trapezoidal_profile 1 0 1 0 2).2.2
        ⟨0, 0, 0, 0⟩ ⟨1, 0, 0, 0⟩ 0 1 2).moves.headD Toolhead.dummyTMove).move_t =
      (Toolhead.calc_trapezoidal_profile 1 0 1 0 2).1 +
      (Toolhead.calc_trapezoidal_profile 1 0 1 0 2).2.1 +
      (Toolhead.calc_trapezoidal_profile 1 0 1 0 2).2.2 ∧
    Toolhead.move_get_distance
      ((Toolhead.trapq_append ⟨[], [], []⟩ 0
          (Toolhead.calc_trapezoidal_profile 1 0 1 0 2).1
          (Toolhead.calc_trapezoidal_profile 1 0 1 0 2).2.1
          (Toolhead.calc_trapezoidal_profile 1 0 1 0 2).2.2
          ⟨0, 0, 0, 0⟩ ⟨1, 0, 0, 0⟩ 0 1 2).moves.headD Toolhead.dummyTMove)
      ((Toolhead.trapq_append ⟨[], [], []⟩ 0
          (Toolhead.calc_trapezoidal_profile 1 0 1 0 2).1
          (Toolhead.calc_trapezoidal_profile 1 0 1 0 2).2.1
          (Toolhead.calc_trapezoidal_profile 1 0 1 0 2).2.2
          ⟨0, 0, 0, 0⟩ ⟨1, 0, 0, 0⟩ 0 1 2).moves.headD
        Toolhead.dummyTMove).move_t = 1 :=
  C8_profile_closure 1 0 1 0 2 (by norm_num) (by norm_num) (by norm_num)
    (by norm_num) (by norm_num) (by norm_num) (by norm_num) (by norm_num)

theorem lookahead_fwd_cons (cfg : Toolhead.Config) (pev : ℝ) (m : Toolhead.LAMove)
    (rest : List Toolhead.LAMove) :
    Toolhead.lookahead_fwd cfg pev (m :: rest) =
      { m with start_v := pev, cruise_v := Toolhead.fwd_cv cfg pev m,
               end_v := Toolhead.fwd_ev cfg pev m } ::
        Toolhead.lookahead_fwd cfg (Toolhead.fwd_ev cfg pev m) rest := rfl

theorem lookahead_rev_cons (cfg : Toolhead.Config) (pm curr : Toolhead.LAMove)
    (rest : List Toolhead.LAMove) :
    Toolhead.lookahead_rev cfg pm (curr :: rest) =
      (Toolhead.rev_msv cfg pm curr (Toolhead.lookahead_rev cfg curr rest).1,
       { curr with
           max_end_v := (Toolhead.lookahead_rev cfg curr rest).1,
           max_start_v := Toolhead.rev_msv cfg pm curr
             (Toolhead.lookahead_rev cfg curr rest).1 } ::
         (Toolhead.lookahead_rev cfg curr rest).2) := rfl

theorem lookahead_fwd_length (cfg : Toolhead.Config) :
    ∀ (l : List Toolhead.LAMove) (pev : ℝ),
      (Toolhead.lookahead_fwd cfg pev l).length = l.length
  | [], _ => rfl
  | _ :: rest, pev => by
    rw [lookahead_fwd_cons, List.length_cons, List.length_cons,
      lookahead_fwd_length cfg rest]

theorem lookahead_rev_len (cfg : Toolhead.Config) :
    ∀ (l : List Toolhead.LAMove) (pm : Toolhead.LAMove),
      (Toolhead.lookahead_rev cfg pm l).2.length = l.length
  | [], _ => rfl
  | curr :: rest, pm => by
    rw [lookahead_rev_cons, List.length_cons, List.length_cons,
      lookahead_rev_len cfg rest]

theorem lookahead_process_length (cfg : Toolhead.Config) (q : List Toolhead.LAMove) :
    (Toolhead.lookahead_process cfg q).length = q.length := by
  cases q with
  | nil => rfl
  | cons m0 rest =>
    show (Toolhead.lookahead_fwd cfg 0 _).length = _
    rw [lookahead_fwd_length, List.length_cons, List.length_cons,
      lookahead_rev_len]

theorem lookahead_fwd_adj (cfg : Toolhead.Config) :
    ∀ (l : List Toolhead.LAMove) (pev : ℝ) (i : ℕ),
      i + 1 < (Toolhead.lookahead_fwd cfg pev l).length →
      ((Toolhead.lookahead_fwd cfg pev l).getD i Toolhead.dummyLA).end_v =
        ((Toolhead.lookahead_fwd cfg pev l).getD (i + 1) Toolhead.dummyLA).start_v
  | [], pev, i, h => by simp [Toolhead.lookahead_fwd] at h
  | m :: rest, pev, 0, h => by
    rw [lookahead_fwd_cons] at h ⊢
    rw [List.length_cons, lookahead_fwd_length] at h
    match rest, h with
    | m2 :: rest2, _ => rw [lookahead_fwd_cons]; rfl
  | m :: rest, pev, i + 1, h => by
    rw [lookahead_fwd_cons] at h ⊢
    rw [List.length_cons] at h
    exact lookahead_fwd_adj cfg rest (Toolhead.fwd_ev cfg pev m) i
      (Nat.lt_of_succ_lt_succ h)

/-- C1: what holds of velocity continuity in `lookahead_process`: within
one pass, the first entry starts at velocity 0 and every adjacent pair of
resolved entries satisfies `end_v = start_v` of its successor.  (Across
flush batches the property fails: each pass restarts `prev_end_v` at 0 —
see the counterexample.) -/
theorem C1_within_batch_continuity (cfg : Toolhead.Config) (q : List Toolhead.LAMove) :
    (q ≠ [] →
      ((Toolhead.lookahead_process cfg q).headD Toolhead.dummyLA).start_v = 0) ∧
    (∀ i : ℕ, i + 1 < (Toolhead.lookahead_process cfg q).length →
      ((Toolhead.lookahead_process cfg q).getD i Toolhead.dummyLA).end_v =
        ((Toolhead.lookahead_process cfg q).getD (i + 1) Toolhead.dummyLA).start_v) := by
  constructor
  · intro hq
    match q with
    | m0 :: rest =>
      show ((Toolhead.lookahead_fwd cfg 0 _).headD Toolhead.dummyLA).start_v = 0
      rw [lookahead_fwd_cons]
      rfl
  · intro i h
    match q with
    | [] => simp [Toolhead.lookahead_process] at h
    | m0 :: rest =>
      exact lookahead_fwd_adj cfg _ 0 i h

/-- Witness for `C1_within_batch_continuity`: a two-entry queue under the
default configuration, instantiated at the adjacent pair `(0, 1)`. -/
theorem C1_within_batch_continuity_witness :
    ((Toolhead.lookahead_process Toolhead.default_config
        [Toolhead.dummyLA, Toolhead.dummyLA]).getD 0 Toolhead.dummyLA).end_v =
      ((Toolhead.lookahead_process Toolhead.default_config
          [Toolhead.dummyLA, Toolhead.dummyLA]).getD 1 Toolhead.dummyLA).start_v :=
  (C1_within_batch_continuity Toolhead.default_config
      [Toolhead.dummyLA, Toolhead.dummyLA]).2 0
    (by rw [lookahead_process_length]; norm_num)

theorem ce_dist_eval (k : ℕ) :
    Toolhead.calc_move_distance (Toolhead.ce_pos k) (Toolhead.ce_pos (k + 1)) =
      Toolhead.ce_d := by
  unfold Toolhead.calc_move_distance Toolhead.ce_pos
  have h : ((k + 1 : ℕ) : ℝ) * Toolhead.ce_d - (k : ℝ) * Toolhead.ce_d =
      Toolhead.ce_d := by push_cast; ring
  rw [h]
  norm_num
  exact Real.sqrt_mul_self (by norm_num [Toolhead.ce_d])

theorem ce_dir_eval (k : ℕ) :
    Toolhead.cartesian_calc_direction (Toolhead.ce_pos k) (Toolhead.ce_pos (k + 1)) =
      (⟨1, 0, 0, 0⟩, Toolhead.ce_d) := by
  unfold Toolhead.cartesian_calc_direction Toolhead.ce_pos
  have h : ((k + 1 : ℕ) : ℝ) * Toolhead.ce_d - (k : ℝ) * Toolhead.ce_d =
      Toolhead.ce_d := by push_cast; ring
  simp only [h]
  have hd : Real.sqrt (Toolhead.ce_d * Toolhead.ce_d + (0 - 0) * (0 - 0) +
      (0 - 0) * (0 - 0) + (0 - 0) * (0 - 0)) = Toolhead.ce_d := by
    norm_num
    exact Real.sqrt_mul_self (by norm_num [Toolhead.ce_d])
  rw [hd, if_neg (by norm_num [Toolhead.ce_d])]
  norm_num [Toolhead.ce_d]

theorem ce_dir_of_la (k : ℕ) : Toolhead.dir_of (Toolhead.ce_la k) = ⟨1, 0, 0, 0⟩ := by
  show (Toolhead.cartesian_calc_direction (Toolhead.ce_pos k)
    (Toolhead.ce_pos (k + 1))).1 = _
  rw [ce_dir_eval]

theorem ce_dir_of_rev (k : ℕ) (mev : ℝ) :
    Toolhead.dir_of (Toolhead.ce_rev k mev) = ⟨1, 0, 0, 0⟩ :=
  ce_dir_of_la k

theorem ce_dir_of_fin (k : ℕ) (mev sv ev : ℝ) :
    Toolhead.dir_of (Toolhead.ce_fin k mev sv ev) = ⟨1, 0, 0, 0⟩ :=
  ce_dir_of_la k

theorem ce_sqrt_gt (x : ℝ) :
    Real.sqrt (x * x + 2 * Toolhead.default_config.max_accel * Toolhead.ce_d) >
      Toolhead.ce_v := by
  have h : (2 : ℝ) * Toolhead.default_config.max_accel * Toolhead.ce_d = 434 / 36 := by
    norm_num [Toolhead.default_config, Toolhead.ce_d]
  rw [gt_iff_lt, h, show Toolhead.ce_v = 19 / 6 from rfl]
  rw [Real.lt_sqrt (by norm_num)]
  nlinarith [mul_self_nonneg x]

theorem ce_sqrt_four : Real.sqrt 4 = 2 := by
  rw [show (4 : ℝ) = 2 ^ 2 by norm_num, Real.sqrt_sq (by norm_num)]

theorem ce_junction_eval (v : ℝ) :
    Toolhead.calc_junction_velocity Toolhead.default_config ⟨1, 0, 0, 0⟩ ⟨1, 0, 0, 0⟩ v =
      v := by
  unfold Toolhead.calc_junction_velocity
  rw [if_neg (by norm_num), if_pos (by norm_num)]

theorem rev_msv_ce (pm curr : Toolhead.LAMove) (mev : ℝ)
    (hd : curr.distance = Toolhead.ce_d)
    (hmax : curr.max_cruise_v = Toolhead.ce_v)
    (hpm : Toolhead.dir_of pm = ⟨1, 0, 0, 0⟩)
    (hcu : Toolhead.dir_of curr = ⟨1, 0, 0, 0⟩) :
    Toolhead.rev_msv Toolhead.default_config pm curr mev = Toolhead.ce_v := by
  unfold Toolhead.rev_msv
  simp only []
  rw [hd, hmax, hpm, hcu, if_pos (ce_sqrt_gt mev), ce_junction_eval,
    if_neg (lt_irrefl Toolhead.ce_v)]

theorem fwd_cv_ce (sv : ℝ) (m : Toolhead.LAMove)
    (hd : m.distance = Toolhead.ce_d)
    (hmax : m.max_cruise_v = Toolhead.ce_v) :
    Toolhead.fwd_cv Toolhead.default_config sv m = Toolhead.ce_v := by
  unfold Toolhead.fwd_cv
  simp only []
  rw [hd, hmax, if_pos (ce_sqrt_gt sv)]

theorem fwd_ev_ce (sv : ℝ) (m : Toolhead.LAMove)
    (hd : m.distance = Toolhead.ce_d)
    (hmax : m.max_cruise_v = Toolhead.ce_v) :
    Toolhead.fwd_ev Toolhead.default_config sv m =
      (if (2 : ℝ) > m.max_end_v then m.max_end_v else 2) := by
  unfold Toolhead.fwd_ev
  simp only []
  rw [fwd_cv_ce sv m hd hmax, hd]
  have h4 : Toolhead.ce_v * Toolhead.ce_v -
      2 * Toolhead.default_config.max_accel_to_decel * Toolhead.ce_d = 4 := by
    norm_num [Toolhead.ce_v, Toolhead.default_config, Toolhead.ce_d]
  rw [h4, if_pos (by norm_num : (4 : ℝ) > 0), ce_sqrt_four]

theorem lookahead_process_cons (cfg : Toolhead.Config) (m0 : Toolhead.LAMove)
    (rest : List Toolhead.LAMove) :
    Toolhead.lookahead_process cfg (m0 :: rest) =
      Toolhead.lookahead_fwd cfg 0
        ({ m0 with max_end_v := (Toolhead.lookahead_rev cfg m0 rest).1 } ::
          (Toolhead.lookahead_rev cfg m0 rest).2) := rfl

theorem ce_rev_eval : ∀ (n i : ℕ),
    Toolhead.lookahead_rev Toolhead.default_config (Toolhead.ce_la i)
      ((List.range' (i + 1) (n + 1)).map Toolhead.ce_la) =
    (Toolhead.ce_v,
      ((List.range' (i + 1) n).map (fun j => Toolhead.ce_rev j Toolhead.ce_v)) ++
        [Toolhead.ce_rev (i + 1 + n) 0])
  | 0, i => by
    rw [show List.range' (i + 1) (0 + 1) = [i + 1] from rfl, List.map_cons,
      List.map_nil, lookahead_rev_cons,
      rev_msv_ce _ _ _ rfl rfl (ce_dir_of_la i) (ce_dir_of_la (i + 1))]
    rfl
  | n + 1, i => by
    rw [show List.range' (i + 1) (n + 1 + 1) = (i + 1) :: List.range' (i + 2) (n + 1)
        from List.range'_succ _ _ _, List.map_cons, lookahead_rev_cons,
      ce_rev_eval n (i + 1),
      rev_msv_ce _ _ _ rfl rfl (ce_dir_of_la i) (ce_dir_of_la (i + 1))]
    rw [show i + 1 + (n + 1) = i + 1 + 1 + n by omega,
      show List.range' (i + 1) (n + 1) = (i + 1) :: List.range' (i + 2) n
        from List.range'_succ _ _ _, List.map_cons, List.cons_append]
    rfl

theorem ce_fwd_eval : ∀ (n i : ℕ),
    Toolhead.lookahead_fwd Toolhead.default_config 2
      (((List.range' i n).map (fun j => Toolhead.ce_rev j Toolhead.ce_v)) ++
        [Toolhead.ce_rev (i + n) 0]) =
    ((List.range' i n).map (fun j => Toolhead.ce_fin j Toolhead.ce_v 2 2)) ++
      [Toolhead.ce_fin (i + n) 0 2 0]
  | 0, i => by
    rw [show List.range' i 0 = [] from rfl, List.map_nil, List.nil_append,
      lookahead_fwd_cons, fwd_cv_ce _ _ rfl rfl, fwd_ev_ce _ _ rfl rfl,
      show (Toolhead.ce_rev (i + 0) 0).max_end_v = 0 from rfl,
      if_pos (by norm_num : (2 : ℝ) > 0)]
    rfl
  | n + 1, i => by
    rw [show List.range' i (n + 1) = i :: List.range' (i + 1) n
        from List.range'_succ _ _ _, List.map_cons, List.map_cons,
      List.cons_append, List.cons_append, lookahead_fwd_cons,
      fwd_cv_ce _ _ rfl rfl, fwd_ev_ce _ _ rfl rfl,
      show (Toolhead.ce_rev i Toolhead.ce_v).max_end_v = Toolhead.ce_v from rfl,
      if_neg (by norm_num [Toolhead.ce_v] : ¬((2 : ℝ) > Toolhead.ce_v)),
      show i + (n + 1) = i + 1 + n by omega, ce_fwd_eval n (i + 1)]
    rfl

theorem ce_process_eval :
    Toolhead.lookahead_process Toolhead.default_config
      ((List.range 14).map Toolhead.ce_la) =
    Toolhead.ce_fin 0 Toolhead.ce_v 0 2 ::
      (((List.range' 1 12).map (fun j => Toolhead.ce_fin j Toolhead.ce_v 2 2)) ++
        [Toolhead.ce_fin 13 0 2 0]) := by
  have hr : List.range 14 = 0 :: List.range' 1 13 := by decide
  have h := ce_rev_eval 12 0
  norm_num at h
  have h1 : ({ Toolhead.ce_la 0 with
      max_end_v := (Toolhead.lookahead_rev Toolhead.default_config (Toolhead.ce_la 0)
        ((List.range' 1 13).map Toolhead.ce_la)).1 } : Toolhead.LAMove) =
      Toolhead.ce_rev 0 Toolhead.ce_v := by rw [h]; rfl
  have h2 : (Toolhead.lookahead_rev Toolhead.default_config (Toolhead.ce_la 0)
      ((List.range' 1 13).map Toolhead.ce_la)).2 =
      ((List.range' 1 12).map (fun j => Toolhead.ce_rev j Toolhead.ce_v)) ++
        [Toolhead.ce_rev 13 0] := by rw [h]
  rw [hr, List.map_cons, lookahead_process_cons, h1, h2, lookahead_fwd_cons,
    fwd_cv_ce _ _ rfl rfl, fwd_ev_ce _ _ rfl rfl,
    show (Toolhead.ce_rev 0 Toolhead.ce_v).max_end_v = Toolhead.ce_v from rfl,
    if_neg (by norm_num [Toolhead.ce_v] : ¬((2 : ℝ) > Toolhead.ce_v))]
  have h3 := ce_fwd_eval 12 1
  norm_num at h3
  rw [h3]
  rfl

theorem ce_process_two :
    Toolhead.lookahead_process Toolhead.default_config
      [Toolhead.ce_fin 12 Toolhead.ce_v 2 2, Toolhead.ce_fin 13 0 2 0] =
      [Toolhead.ce_fin 12 Toolhead.ce_v 0 2, Toolhead.ce_fin 13 0 2 0] := by
  have hrev : Toolhead.lookahead_rev Toolhead.default_config
      (Toolhead.ce_fin 12 Toolhead.ce_v 2 2) [Toolhead.ce_fin 13 0 2 0] =
      (Toolhead.ce_v, [Toolhead.ce_fin 13 0 2 0]) := by
    rw [lookahead_rev_cons,
      rev_msv_ce _ _ _ rfl rfl (ce_dir_of_fin 12 _ _ _) (ce_dir_of_fin 13 _ _ _)]
    rfl
  have h1 : ({ Toolhead.ce_fin 12 Toolhead.ce_v 2 2 with
      max_end_v := (Toolhead.lookahead_rev Toolhead.default_config
        (Toolhead.ce_fin 12 Toolhead.ce_v 2 2) [Toolhead.ce_fin 13 0 2 0]).1 } :
        Toolhead.LAMove) = Toolhead.ce_fin 12 Toolhead.ce_v 2 2 := by rw [hrev]; rfl
  have h2 : (Toolhead.lookahead_rev Toolhead.default_config
      (Toolhead.ce_fin 12 Toolhead.ce_v 2 2) [Toolhead.ce_fin 13 0 2 0]).2 =
      [Toolhead.ce_fin 13 0 2 0] := by rw [hrev]
  rw [lookahead_process_cons, h1, h2, lookahead_fwd_cons,
    fwd_cv_ce _ _ rfl rfl, fwd_ev_ce _ _ rfl rfl,
    show (Toolhead.ce_fin 12 Toolhead.ce_v 2 2).max_end_v = Toolhead.ce_v from rfl,
    if_neg (by norm_num [Toolhead.ce_v] : ¬((2 : ℝ) > Toolhead.ce_v)),
    lookahead_fwd_cons, fwd_cv_ce _ _ rfl rfl, fwd_ev_ce _ _ rfl rfl,
    show (Toolhead.ce_fin 13 0 2 0).max_end_v = 0 from rfl,
    if_pos (by norm_num : (2 : ℝ) > 0)]
  rfl

theorem ce_sqrt_peak :
    Real.sqrt ((0 * 0 + 2 * 2) * 0.5 + 3000 * Toolhead.ce_d) = 17 / 6 := by
  rw [show ((0 : ℝ) * 0 + 2 * 2) * 0.5 + 3000 * Toolhead.ce_d = (17 / 6) ^ 2 by
    norm_num [Toolhead.ce_d]]
  exact Real.sqrt_sq (by norm_num)

theorem ce_sqrt_peak_last :
    Real.sqrt ((2 * 2 + 0 * 0) * 0.5 + 3000 * Toolhead.ce_d) = 17 / 6 := by
  rw [show ((2 : ℝ) * 2 + 0 * 0) * 0.5 + 3000 * Toolhead.ce_d = (17 / 6) ^ 2 by
    norm_num [Toolhead.ce_d]]
  exact Real.sqrt_sq (by norm_num)

theorem ce_prof_first :
    Toolhead.calc_trapezoidal_profile Toolhead.ce_d 0 Toolhead.ce_v 2 3000 =
      (17 / 18000, 0, 1 / 3600) := by
  have h1 : Toolhead.ce_v > (0 : ℝ) := by norm_num [Toolhead.ce_v]
  have h2 : Toolhead.ce_v > (2 : ℝ) := by norm_num [Toolhead.ce_v]
  have hneg : Toolhead.ce_d - (0 + Toolhead.ce_v) * 0.5 * ((Toolhead.ce_v - 0) / 3000) -
      (Toolhead.ce_v + 2) * 0.5 * ((Toolhead.ce_v - 2) / 3000) < 0 := by
    norm_num [Toolhead.ce_d, Toolhead.ce_v]
  simp only [Toolhead.calc_trapezoidal_profile]
  rw [if_pos h1, if_pos h1, if_pos h2, if_pos h2, if_pos hneg, ce_sqrt_peak,
    if_neg (by norm_num : ¬((17 : ℝ) / 6 < 0)),
    if_neg (by norm_num : ¬((17 : ℝ) / 6 < 2)),
    if_pos (by norm_num : (17 : ℝ) / 6 > 0),
    if_pos (by norm_num : (17 : ℝ) / 6 > 2)]
  norm_num

theorem ce_prof_int :
    Toolhead.calc_trapezoidal_profile Toolhead.ce_d 2 Toolhead.ce_v 2 3000 =
      (7 / 18000, 0, 7 / 18000) := by
  have h2 : Toolhead.ce_v > (2 : ℝ) := by norm_num [Toolhead.ce_v]
  have hz : Toolhead.ce_d - (2 + Toolhead.ce_v) * 0.5 * ((Toolhead.ce_v - 2) / 3000) -
      (Toolhead.ce_v + 2) * 0.5 * ((Toolhead.ce_v - 2) / 3000) = 0 := by
    norm_num [Toolhead.ce_d, Toolhead.ce_v]
  simp only [Toolhead.calc_trapezoidal_profile]
  rw [if_pos h2, if_pos h2, if_pos h2,
    if_neg (not_lt.2 (le_of_eq hz.symm)), hz]
  norm_num [Toolhead.ce_v]

theorem ce_prof_last :
    Toolhead.calc_trapezoidal_profile Toolhead.ce_d 2 Toolhead.ce_v 0 3000 =
      (1 / 3600, 0, 17 / 18000) := by
  have h1 : Toolhead.ce_v > (0 : ℝ) := by norm_num [Toolhead.ce_v]
  have h2 : Toolhead.ce_v > (2 : ℝ) := by norm_num [Toolhead.ce_v]
  have hneg : Toolhead.ce_d - (2 + Toolhead.ce_v) * 0.5 * ((Toolhead.ce_v - 2) / 3000) -
      (Toolhead.ce_v + 0) * 0.5 * ((Toolhead.ce_v - 0) / 3000) < 0 := by
    norm_num [Toolhead.ce_d, Toolhead.ce_v]
  simp only [Toolhead.calc_trapezoidal_profile]
  rw [if_pos h2, if_pos h2, if_pos h1, if_pos h1, if_pos hneg, ce_sqrt_peak_last,
    if_neg (by norm_num : ¬((17 : ℝ) / 6 < 2)),
    if_neg (by norm_num : ¬((17 : ℝ) / 6 < 0)),
    if_pos (by norm_num : (17 : ℝ) / 6 > 2),
    if_pos (by norm_num : (17 : ℝ) / 6 > 0)]
  norm_num

theorem ce_lsig_first (j : ℕ) (mev : ℝ) :
    Toolhead.ce_lsig (Toolhead.ce_fin j mev 0 2) = (0, 7 / 3) := by
  unfold Toolhead.ce_lsig
  rw [show (Toolhead.ce_fin j mev 0 2).start_v = (0 : ℝ) from rfl,
    show (Toolhead.ce_fin j mev 0 2).distance = Toolhead.ce_d from rfl,
    show (Toolhead.ce_fin j mev 0 2).cruise_v = Toolhead.ce_v from rfl,
    show (Toolhead.ce_fin j mev 0 2).end_v = (2 : ℝ) from rfl,
    show Toolhead.default_config.max_accel = (3000 : ℝ) from rfl,
    ce_prof_first]
  norm_num [Toolhead.ce_v]

theorem ce_lsig_int (j : ℕ) (mev : ℝ) :
    Toolhead.ce_lsig (Toolhead.ce_fin j mev 2 2) = (2, 2) := by
  unfold Toolhead.ce_lsig
  rw [show (Toolhead.ce_fin j mev 2 2).start_v = (2 : ℝ) from rfl,
    show (Toolhead.ce_fin j mev 2 2).distance = Toolhead.ce_d from rfl,
    show (Toolhead.ce_fin j mev 2 2).cruise_v = Toolhead.ce_v from rfl,
    show (Toolhead.ce_fin j mev 2 2).end_v = (2 : ℝ) from rfl,
    show Toolhead.default_config.max_accel = (3000 : ℝ) from rfl,
    ce_prof_int]
  norm_num [Toolhead.ce_v]

theorem ce_lsig_last (j : ℕ) (mev : ℝ) :
    Toolhead.ce_lsig (Toolhead.ce_fin j mev 2 0) = (2, 1 / 3) := by
  unfold Toolhead.ce_lsig
  rw [show (Toolhead.ce_fin j mev 2 0).start_v = (2 : ℝ) from rfl,
    show (Toolhead.ce_fin j mev 2 0).distance = Toolhead.ce_d from rfl,
    show (Toolhead.ce_fin j mev 2 0).cruise_v = Toolhead.ce_v from rfl,
    show (Toolhead.ce_fin j mev 2 0).end_v = (0 : ℝ) from rfl,
    show Toolhead.default_config.max_accel = (3000 : ℝ) from rfl,
    ce_prof_last]
  norm_num [Toolhead.ce_v]

theorem emit_facts (st : Toolhead.THState) (m : Toolhead.LAMove)
    (hcfg : st.config = Toolhead.default_config)
    (hcap : st.tq.moves.length + st.tq.history.length < 32) :
    (Toolhead.emit_move st m).tq.trace.map Toolhead.ce_tsig =
      st.tq.trace.map Toolhead.ce_tsig ++ [Toolhead.ce_lsig m] ∧
    (Toolhead.emit_move st m).tq.moves.length = st.tq.moves.length + 1 ∧
    (Toolhead.emit_move st m).tq.history = st.tq.history ∧
    (Toolhead.emit_move st m).config = Toolhead.default_config ∧
    (Toolhead.emit_move st m).lookahead = st.lookahead := by
  have hc : ¬(st.tq.moves.length + st.tq.history.length ≥ Toolhead.TRAPQ_MAX_MOVES) := by
    rw [show Toolhead.TRAPQ_MAX_MOVES = 32 from rfl]
    omega
  unfold Toolhead.emit_move Toolhead.trapq_append
  simp only []
  rw [hcfg, if_neg hc]
  refine ⟨?_, ?_, ?_, ?_, ?_⟩
  · show (st.tq.trace ++ [_]).map Toolhead.ce_tsig = _
    rw [List.map_append, List.map_cons, List.map_nil]
    rfl
  · show (st.tq.moves ++ [_]).length = _
    rw [List.length_append, List.length_cons, List.length_nil]
  · trivial
  · trivial
  · trivial

theorem emit_move_set_la (st : Toolhead.THState) (x : List Toolhead.LAMove)
    (m : Toolhead.LAMove) :
    Toolhead.emit_move { st with lookahead := x } m =
      { Toolhead.emit_move st m with lookahead := x } := rfl

theorem emit_foldl_facts :
    ∀ (l : List Toolhead.LAMove) (st : Toolhead.THState),
      st.config = Toolhead.default_config →
      st.tq.moves.length + st.tq.history.length + l.length ≤ 32 →
      (l.foldl Toolhead.emit_move st).tq.trace.map Toolhead.ce_tsig =
        st.tq.trace.map Toolhead.ce_tsig ++ l.map Toolhead.ce_lsig ∧
      (l.foldl Toolhead.emit_move st).tq.moves.length =
        st.tq.moves.length + l.length ∧
      (l.foldl Toolhead.emit_move st).tq.history = st.tq.history ∧
      (l.foldl Toolhead.emit_move st).config = Toolhead.default_config ∧
      (l.foldl Toolhead.emit_move st).lookahead = st.lookahead
  | [], st, hcfg, _ => by
    refine ⟨?_, rfl, rfl, hcfg, rfl⟩
    rw [List.map_nil, List.append_nil]
    rfl
  | m :: rest, st, hcfg, hcap => by
    rw [List.foldl_cons]
    have hcap1 : st.tq.moves.length + st.tq.history.length < 32 := by
      rw [List.length_cons] at hcap
      omega
    obtain ⟨e1, e2, e3, e4, e5⟩ := emit_facts st m hcfg hcap1
    have hcap2 : (Toolhead.emit_move st m).tq.moves.length +
        (Toolhead.emit_move st m).tq.history.length + rest.length ≤ 32 := by
      rw [e2, e3]
      rw [List.length_cons] at hcap
      omega
    obtain ⟨f1, f2, f3, f4, f5⟩ := emit_foldl_facts rest (Toolhead.emit_move st m) e4 hcap2
    refine ⟨?_, ?_, ?_, f4, ?_⟩
    · rw [f1, e1, List.map_cons, List.append_assoc]
      rfl
    · rw [f2, e2, List.length_cons]
      omega
    · rw [f3, e3]
    · rw [f5, e5]

theorem drain_aux_eq_foldl :
    ∀ (l₁ : List Toolhead.LAMove) (n : ℕ) (st : Toolhead.THState)
      (l₂ : List Toolhead.LAMove),
      st.lookahead = l₁ ++ l₂ → l₂.length = 2 → l₁.length ≤ n →
      Toolhead.drain_aux n st =
        l₁.foldl Toolhead.emit_move { st with lookahead := l₂ }
  | [], n, st, l₂, hla, hl2, _ => by
    rw [List.nil_append] at hla
    rw [List.foldl_nil, ← hla]
    have hst : ({ st with lookahead := st.lookahead } : Toolhead.THState) = st := rfl
    rw [hst]
    match n with
    | 0 => rfl
    | n + 1 =>
      unfold Toolhead.drain_aux
      rw [if_neg (by rw [hla, hl2]; omega)]
  | m :: l₁, n, st, l₂, hla, hl2, hn => by
    match n with
    | 0 => exact absurd hn (by rw [List.length_cons]; omega)
    | n + 1 =>
      unfold Toolhead.drain_aux
      rw [if_pos (by rw [hla, List.length_append, List.length_cons, hl2]; omega)]
      rw [hla, List.cons_append]
      simp only []
      rw [List.foldl_cons,
        drain_aux_eq_foldl l₁ n (Toolhead.emit_move { st with lookahead := l₁ ++ l₂ } m)
          l₂ rfl hl2 (by rw [List.length_cons] at hn; omega),
        emit_move_set_la, emit_move_set_la]
      rfl

theorem ce_move_front (k : ℕ) (hk : k ≤ 13) :
    Toolhead.toolhead_move (Toolhead.ce_state k) (Toolhead.ce_pos (k + 1)) Toolhead.ce_v =
      Toolhead.toolhead_move_tail (Toolhead.ce_state k)
        ((List.range (k + 1)).map Toolhead.ce_la) (Toolhead.ce_pos (k + 1)) := by
  have hcmd : (Toolhead.ce_state k).commanded_pos = Toolhead.ce_pos k := rfl
  have hcfg : (Toolhead.ce_state k).config = Toolhead.default_config := rfl
  have hla : (Toolhead.ce_state k).lookahead = (List.range k).map Toolhead.ce_la := rfl
  have hmin : ¬(Toolhead.ce_d < Toolhead.MIN_MOVE_DISTANCE) := by
    norm_num [Toolhead.ce_d, Toolhead.MIN_MOVE_DISTANCE]
  have hv1 : ¬(Toolhead.ce_v > Toolhead.default_config.max_velocity) := by
    norm_num [Toolhead.ce_v, Toolhead.default_config]
  have hv2 : ¬(Toolhead.ce_v < 0.001) := by norm_num [Toolhead.ce_v]
  have hxv : (Toolhead.ce_pos (k + 1)).x = ((k + 1 : ℕ) : ℝ) * Toolhead.ce_d := rfl
  have hx0 : (0 : ℝ) ≤ ((k + 1 : ℕ) : ℝ) * Toolhead.ce_d := by
    have : (0 : ℝ) < Toolhead.ce_d := by norm_num [Toolhead.ce_d]
    positivity
  have hx1 : ((k + 1 : ℕ) : ℝ) * Toolhead.ce_d ≤ 220 := by
    have hc : ((k + 1 : ℕ) : ℝ) ≤ 14 := by
      have h14 : (k + 1 : ℕ) ≤ 14 := by omega
      exact_mod_cast Nat.cast_le.mpr h14
    have hd : (0 : ℝ) < Toolhead.ce_d := by norm_num [Toolhead.ce_d]
    calc ((k + 1 : ℕ) : ℝ) * Toolhead.ce_d ≤ 14 * Toolhead.ce_d :=
          mul_le_mul_of_nonneg_right hc (le_of_lt hd)
      _ ≤ 220 := by norm_num [Toolhead.ce_d]
  have hlim : ¬((Toolhead.ce_pos (k + 1)).x < Toolhead.X_MIN ∨
      (Toolhead.ce_pos (k + 1)).x > Toolhead.X_MAX ∨
      (Toolhead.ce_pos (k + 1)).y < Toolhead.Y_MIN ∨
      (Toolhead.ce_pos (k + 1)).y > Toolhead.Y_MAX ∨
      (Toolhead.ce_pos (k + 1)).z < Toolhead.Z_MIN ∨
      (Toolhead.ce_pos (k + 1)).z > Toolhead.Z_MAX) := by
    push_neg
    rw [hxv]
    refine ⟨by rw [show Toolhead.X_MIN = (0 : ℝ) from rfl]; exact hx0,
      by rw [show Toolhead.X_MAX = (220 : ℝ) from rfl]; exact hx1, ?_, ?_, ?_, ?_⟩ <;>
      norm_num [Toolhead.ce_pos, Toolhead.X_MIN, Toolhead.X_MAX, Toolhead.Y_MIN,
        Toolhead.Y_MAX, Toolhead.Z_MIN, Toolhead.Z_MAX]
  have hpush : ¬(((List.range k).map Toolhead.ce_la).length ≥ Toolhead.LOOKAHEAD_SIZE) := by
    rw [List.length_map, List.length_range, show Toolhead.LOOKAHEAD_SIZE = 16 from rfl]
    omega
  unfold Toolhead.toolhead_move
  rw [hcmd, hcfg, hla, ce_dist_eval k, if_neg hmin]
  simp only []
  rw [if_neg hv1, if_neg hv2, if_neg hlim]
  unfold Toolhead.lookahead_push
  rw [if_neg hpush]
  simp only []
  conv_rhs => rw [List.range_succ]
  rw [List.map_append, List.map_cons, List.map_nil]
  rfl

theorem ce_tail_small (k : ℕ) (hk : k ≤ 12) :
    Toolhead.toolhead_move_tail (Toolhead.ce_state k)
      ((List.range (k + 1)).map Toolhead.ce_la) (Toolhead.ce_pos (k + 1)) =
      (Toolhead.TOOLHEAD_OK, Toolhead.ce_state (k + 1)) := by
  have hlen : ((List.range (k + 1)).map Toolhead.ce_la).length = k + 1 := by
    rw [List.length_map, List.length_range]
  unfold Toolhead.toolhead_move_tail
  simp only [hlen]
  rw [show Toolhead.LOOKAHEAD_SIZE - 2 = 14 from rfl,
    if_neg (by omega : ¬(14 ≤ k + 1))]
  rfl

theorem ce_tail_full :
    Toolhead.toolhead_move_tail (Toolhead.ce_state 13)
      ((List.range 14).map Toolhead.ce_la) (Toolhead.ce_pos 14) =
      (Toolhead.TOOLHEAD_OK,
        Toolhead.drain_aux 16
          { Toolhead.ce_state 14 with
              lookahead := Toolhead.lookahead_process Toolhead.default_config
                ((List.range 14).map Toolhead.ce_la) }) := by
  have hlen : ((List.range 14).map Toolhead.ce_la).length = 14 := by
    rw [List.length_map, List.length_range]
  unfold Toolhead.toolhead_move_tail
  simp only [hlen]
  rw [show Toolhead.LOOKAHEAD_SIZE - 2 = 14 from rfl, if_pos (by omega : 14 ≤ 14)]
  rfl

theorem ce_push_state : ∀ k : ℕ, k ≤ 13 → Toolhead.ce_push k = Toolhead.ce_state k
  | 0, _ => by
    show Toolhead.toolhead_init_state = Toolhead.ce_state 0
    simp [Toolhead.ce_state, Toolhead.toolhead_init_state, Toolhead.ce_pos]
  | k + 1, hk => by
    show (Toolhead.toolhead_move (Toolhead.ce_push k) (Toolhead.ce_pos (k + 1))
      Toolhead.ce_v).2 = _
    rw [ce_push_state k (by omega), ce_move_front k (by omega),
      ce_tail_small k (by omega)]

theorem ce_push14 :
    Toolhead.ce_push 14 =
      Toolhead.drain_aux 16
        { Toolhead.ce_state 14 with
            lookahead := Toolhead.lookahead_process Toolhead.default_config
              ((List.range 14).map Toolhead.ce_la) } := by
  show (Toolhead.toolhead_move (Toolhead.ce_push 13) (Toolhead.ce_pos (13 + 1))
    Toolhead.ce_v).2 = _
  rw [ce_push_state 13 (by omega), ce_move_front 13 (by omega)]
  rw [show (13 : ℕ) + 1 = 14 from rfl, ce_tail_full]

theorem tq_post_trace (tq : Toolhead.Trapq) (pt pt2 : ℝ) :
    (Toolhead.trapq_free_moves (Toolhead.trapq_finalize_moves tq pt) pt2).trace =
      tq.trace := rfl

theorem ce_drain_facts :
    (Toolhead.ce_push 14).tq.trace.map Toolhead.ce_tsig = [((0 : ℝ), (7 : ℝ) / 3), (2, 2), (2, 2), (2, 2), (2, 2), (2, 2), (2, 2), (2, 2), (2, 2), (2, 2), (2, 2), (2, 2)] ∧
    (Toolhead.ce_push 14).tq.moves.length = 12 ∧
    (Toolhead.ce_push 14).tq.history = [] ∧
    (Toolhead.ce_push 14).config = Toolhead.default_config ∧
    (Toolhead.ce_push 14).lookahead = [Toolhead.ce_fin 12 Toolhead.ce_v 2 2, Toolhead.ce_fin 13 0 2 0] := by
  have hP : Toolhead.lookahead_process Toolhead.default_config
      ((List.range 14).map Toolhead.ce_la) =
      [Toolhead.ce_fin 0 Toolhead.ce_v 0 2,
      Toolhead.ce_fin 1 Toolhead.ce_v 2 2,
      Toolhead.ce_fin 2 Toolhead.ce_v 2 2,
      Toolhead.ce_fin 3 Toolhead.ce_v 2 2,
      Toolhead.ce_fin 4 Toolhead.ce_v 2 2,
      Toolhead.ce_fin 5 Toolhead.ce_v 2 2,
      Toolhead.ce_fin 6 Toolhead.ce_v 2 2,
      Toolhead.ce_fin 7 Toolhead.ce_v 2 2,
      Toolhead.ce_fin 8 Toolhead.ce_v 2 2,
      Toolhead.ce_fin 9 Toolhead.ce_v 2 2,
      Toolhead.ce_fin 10 Toolhead.ce_v 2 2,
      Toolhead.ce_fin 11 Toolhead.ce_v 2 2,
      Toolhead.ce_fin 12 Toolhead.ce_v 2 2,
      Toolhead.ce_fin 13 0 2 0] := by
    rw [ce_process_eval, show List.range' 1 12 = [1, 2, 3, 4, 5, 6, 7, 8, 9, 10, 11, 12]
      from rfl]
    rfl
  rw [ce_push14, hP,
    drain_aux_eq_foldl
      [Toolhead.ce_fin 0 Toolhead.ce_v 0 2,
      Toolhead.ce_fin 1 Toolhead.ce_v 2 2,
      Toolhead.ce_fin 2 Toolhead.ce_v 2 2,
      Toolhead.ce_fin 3 Toolhead.ce_v 2 2,
      Toolhead.ce_fin 4 Toolhead.ce_v 2 2,
      Toolhead.ce_fin 5 Toolhead.ce_v 2 2,
      Toolhead.ce_fin 6 Toolhead.ce_v 2 2,
      Toolhead.ce_fin 7 Toolhead.ce_v 2 2,
      Toolhead.ce_fin 8 Toolhead.ce_v 2 2,
      Toolhead.ce_fin 9 Toolhead.ce_v 2 2,
      Toolhead.ce_fin 10 Toolhead.ce_v 2 2,
      Toolhead.ce_fin 11 Toolhead.ce_v 2 2] 16
      { Toolhead.ce_state 14 with
          lookahead := [Toolhead.ce_fin 0 Toolhead.ce_v 0 2,
      Toolhead.ce_fin 1 Toolhead.ce_v 2 2,
      Toolhead.ce_fin 2 Toolhead.ce_v 2 2,
      Toolhead.ce_fin 3 Toolhead.ce_v 2 2,
      Toolhead.ce_fin 4 Toolhead.ce_v 2 2,
      Toolhead.ce_fin 5 Toolhead.ce_v 2 2,
      Toolhead.ce_fin 6 Toolhead.ce_v 2 2,
      Toolhead.ce_fin 7 Toolhead.ce_v 2 2,
      Toolhead.ce_fin 8 Toolhead.ce_v 2 2,
      Toolhead.ce_fin 9 Toolhead.ce_v 2 2,
      Toolhead.ce_fin 10 Toolhead.ce_v 2 2,
      Toolhead.ce_fin 11 Toolhead.ce_v 2 2,
      Toolhead.ce_fin 12 Toolhead.ce_v 2 2,
      Toolhead.ce_fin 13 0 2 0] }
      [Toolhead.ce_fin 12 Toolhead.ce_v 2 2, Toolhead.ce_fin 13 0 2 0] rfl rfl (by norm_num)]
  obtain ⟨t1, t2, t3, t4, t5⟩ := emit_foldl_facts
    [Toolhead.ce_fin 0 Toolhead.ce_v 0 2,
      Toolhead.ce_fin 1 Toolhead.ce_v 2 2,
      Toolhead.ce_fin 2 Toolhead.ce_v 2 2,
      Toolhead.ce_fin 3 Toolhead.ce_v 2 2,
      Toolhead.ce_fin 4 Toolhead.ce_v 2 2,
      Toolhead.ce_fin 5 Toolhead.ce_v 2 2,
      Toolhead.ce_fin 6 Toolhead.ce_v 2 2,
      Toolhead.ce_fin 7 Toolhead.ce_v 2 2,
      Toolhead.ce_fin 8 Toolhead.ce_v 2 2,
      Toolhead.ce_fin 9 Toolhead.ce_v 2 2,
      Toolhead.ce_fin 10 Toolhead.ce_v 2 2,
      Toolhead.ce_fin 11 Toolhead.ce_v 2 2]
    { { Toolhead.ce_state 14 with
          lookahead := [Toolhead.ce_fin 0 Toolhead.ce_v 0 2,
      Toolhead.ce_fin 1 Toolhead.ce_v 2 2,
      Toolhead.ce_fin 2 Toolhead.ce_v 2 2,
      Toolhead.ce_fin 3 Toolhead.ce_v 2 2,
      Toolhead.ce_fin 4 Toolhead.ce_v 2 2,
      Toolhead.ce_fin 5 Toolhead.ce_v 2 2,
      Toolhead.ce_fin 6 Toolhead.ce_v 2 2,
      Toolhead.ce_fin 7 Toolhead.ce_v 2 2,
      Toolhead.ce_fin 8 Toolhead.ce_v 2 2,
      Toolhead.ce_fin 9 Toolhead.ce_v 2 2,
      Toolhead.ce_fin 10 Toolhead.ce_v 2 2,
      Toolhead.ce_fin 11 Toolhead.ce_v 2 2,
      Toolhead.ce_fin 12 Toolhead.ce_v 2 2,
      Toolhead.ce_fin 13 0 2 0] } with
        lookahead := [Toolhead.ce_fin 12 Toolhead.ce_v 2 2, Toolhead.ce_fin 13 0 2 0] }
    rfl (by show (0 : ℕ) + 0 + 12 ≤ 32; omega)
  refine ⟨?_, ?_, ?_, t4, ?_⟩
  · rw [t1]
    simp only [List.map_cons, List.map_nil, ce_lsig_first, ce_lsig_int]
    rfl
  · rw [t2]
    show (0 : ℕ) + 12 = 12
    omega
  · rw [t3]
    rfl
  · rw [t5]

theorem lookahead_flush_trace (st : Toolhead.THState)
    (hcfg : st.config = Toolhead.default_config)
    (hcap : st.tq.moves.length + st.tq.history.length + st.lookahead.length ≤ 32) :
    (Toolhead.lookahead_flush st).tq.trace.map Toolhead.ce_tsig =
      st.tq.trace.map Toolhead.ce_tsig ++ st.lookahead.map Toolhead.ce_lsig := by
  unfold Toolhead.lookahead_flush
  obtain ⟨f1, _, _, _, _⟩ := emit_foldl_facts st.lookahead
    { st with lookahead := ([] : List Toolhead.LAMove) } (by exact hcfg) (by exact hcap)
  rw [f1]

theorem ce_trace_sig :
    Toolhead.ce_final.tq.trace.map Toolhead.ce_tsig =
      [((0 : ℝ), (7 : ℝ) / 3), (2, 2), (2, 2), (2, 2), (2, 2), (2, 2), (2, 2), (2, 2), (2, 2), (2, 2), (2, 2), (2, 2), (0, 7 / 3), (2, 1 / 3)] := by
  obtain ⟨d1, d2, d3, d4, d5⟩ := ce_drain_facts
  show (Toolhead.toolhead_flush (Toolhead.ce_push 14)).tq.trace.map Toolhead.ce_tsig = _
  unfold Toolhead.toolhead_flush
  simp only []
  rw [tq_post_trace]
  rw [lookahead_flush_trace _ (by exact d4)
    (by show (Toolhead.ce_push 14).tq.moves.length +
          (Toolhead.ce_push 14).tq.history.length +
          (Toolhead.lookahead_process (Toolhead.ce_push 14).config
            (Toolhead.ce_push 14).lookahead).length ≤ 32
        rw [d2, d3, d4, d5, ce_process_two]
        norm_num)]
  rw [show ({ Toolhead.ce_push 14 with
        lookahead := Toolhead.lookahead_process (Toolhead.ce_push 14).config
          (Toolhead.ce_push 14).lookahead } : Toolhead.THState).tq.trace =
      (Toolhead.ce_push 14).tq.trace from rfl,
    show ({ Toolhead.ce_push 14 with
        lookahead := Toolhead.lookahead_process (Toolhead.ce_push 14).config
          (Toolhead.ce_push 14).lookahead } : Toolhead.THState).lookahead =
      Toolhead.lookahead_process (Toolhead.ce_push 14).config
        (Toolhead.ce_push 14).lookahead from rfl,
    d1, d4, d5, ce_process_two]
  simp only [List.map_cons, List.map_nil, ce_lsig_first, ce_lsig_last]
  rfl

theorem list_getD_map {α β : Type} (f : α → β) (d : α) :
    ∀ (l : List α) (i : ℕ), (l.map f).getD i (f d) = f (l.getD i d)
  | [], _ => rfl
  | _ :: _, 0 => rfl
  | _ :: l, i + 1 => list_getD_map f d l i

/-- C1 counterexample: 14 equal collinear moves of length `ce_d` at speed
`ce_v` under the default configuration.  The 14th `toolhead_move` drains
the lookahead queue, emitting segments 0-11 and retaining two; the final
`toolhead_flush` re-runs `lookahead_process` on the retained pair with
`prev_end_v` restarted at 0.  In the resulting trapezoidal queue the
adjacent segments 11 and 12 (append order, `trace`) are discontinuous:
segment 11's stored law ends at velocity 2 mm/s while segment 12 starts
at 0 mm/s. -/
theorem C1_counterexample :
    Toolhead.ce_final.tq.trace.length = 14 ∧
    Toolhead.move_end_velocity
      (Toolhead.ce_final.tq.trace.getD 11 Toolhead.dummyTMove) = 2 ∧
    (Toolhead.ce_final.tq.trace.getD 12 Toolhead.dummyTMove).start_v = 0 ∧
    (2 : ℝ) ≠ 0 := by
  have h := ce_trace_sig
  have hlen : Toolhead.ce_final.tq.trace.length = 14 := by
    rw [← List.length_map Toolhead.ce_final.tq.trace Toolhead.ce_tsig, h]
    rfl
  have h11 : Toolhead.ce_tsig
      (Toolhead.ce_final.tq.trace.getD 11 Toolhead.dummyTMove) = (2, 2) := by
    rw [← list_getD_map Toolhead.ce_tsig Toolhead.dummyTMove, h]
    rfl
  have h12 : Toolhead.ce_tsig
      (Toolhead.ce_final.tq.trace.getD 12 Toolhead.dummyTMove) = (0, 7 / 3) := by
    rw [← list_getD_map Toolhead.ce_tsig Toolhead.dummyTMove, h]
    rfl
  exact ⟨hlen, congrArg Prod.snd h11, congrArg Prod.fst h12, by norm_num⟩
